import Mathlib

/-!
The consulmeta registry adapter

A shallow embedding of `consulmeta/consulmeta.go`: the adapter that mirrors a
service description into a Consul agent (one service entry with a health check)
and into the Consul key/value store (one key per service attribute).

Conventions of the embedding

* A Go `string` is a sequence of bytes; it is embedded as a `String`, one `Char`
  per element of the Go string.  Indexing, slicing, `len`, `strings.HasPrefix`,
  `strings.TrimPrefix` and `strings.Replace` are defined on the underlying list.
* A Go `map[string]T` is an association list; a lookup returns the first binding
  of the key, and a `range` loop visits the list in order (any enumeration order
  of the map is some list).
* A run-time panic is the `Except.error` result of the function that raises it.
* The Consul client is a record of functions over a backend state `σ`; the
  adapter threads a `World`, the backend state together with the log of the
  backend calls issued so far.  `log.Println` lines are not part of the model.
-/

namespace Consulmeta

/-! ## Go primitives -/

/-- Run-time panics the adapter can raise. -/
inductive Panic where
  | sliceBounds
  deriving DecidableEq, Repr

deriving instance DecidableEq for Except

/-- A Go `error` value that is not `nil`; `Option Error` is a Go `error`. -/
abbrev Error := String

/-- Go `s[n:]`: panics when `n > len(s)`. -/
def sliceFrom (s : String) (n : Nat) : Except Panic String :=
  if n ≤ s.length then .ok ⟨s.data.drop n⟩ else .error .sliceBounds

/-- Go `s[:n]`: panics when `n > len(s)`. -/
def sliceTo (s : String) (n : Nat) : Except Panic String :=
  if n ≤ s.length then .ok ⟨s.data.take n⟩ else .error .sliceBounds

/-- Go `strings.HasPrefix(s, pfx)`. -/
def HasPrefix (s pfx : String) : Bool :=
  pfx.data.isPrefixOf s.data

/-- Go `strings.TrimPrefix(s, pfx)`. -/
def TrimPrefix (s pfx : String) : String :=
  if HasPrefix s pfx then ⟨s.data.drop pfx.length⟩ else s

/-- Worker of `Replace`: scans the text left to right; `skip` counts the
characters of the current match that are still to be dropped. -/
def replaceFrom (old new : List Char) : Nat → List Char → List Char
  | _, [] => []
  | skip + 1, _ :: cs => replaceFrom old new skip cs
  | 0, c :: cs =>
    if old.isPrefixOf (c :: cs) then new ++ replaceFrom old new (old.length - 1) cs
    else c :: replaceFrom old new 0 cs

/-- Go `strings.Replace(s, old, new, -1)` for a non-empty `old`: every
non-overlapping occurrence of `old`, found left to right, is replaced by `new`. -/
def Replace (s old new : String) : String :=
  ⟨replaceFrom old.data new.data 0 s.data⟩

/-- Go `strings.Contains(s, sub)`: `sub` occurs in `s`. -/
def Contains (s sub : String) : Prop :=
  sub.data <:+: s.data

instance (s sub : String) : Decidable (Contains s sub) :=
  inferInstanceAs (Decidable (sub.data <:+: s.data))

/-- The `%d` verb of `fmt.Sprintf` on an `int`. -/
def formatInt (n : Int) : String :=
  toString n

/-! ## Data model -/

/-- Modelled from the spec: the origin record of `bridge.Service` (package
`bridge` is not among the sources); the fields are those the adapter reads. -/
structure ServicePort where
  HostPort : String := ""
  HostIP : String := ""
  ExposedPort : String := ""
  ContainerID : String := ""
  deriving DecidableEq, Repr

/-- Modelled from the spec: `bridge.Service` (package `bridge` is not among the
sources): name, identifier, address and port, tags, attribute mapping, origin. -/
structure Service where
  ID : String := ""
  Name : String := ""
  Port : Int := 0
  IP : String := ""
  Tags : List String := []
  Attrs : List (String × String) := []
  Origin : ServicePort := {}
  deriving DecidableEq, Repr

/-- Go `m[key]` on a `map[string]string`: the zero value `""` when absent. -/
def attr (m : List (String × String)) (key : String) : String :=
  (m.lookup key).getD ""

/-- The fields of `consulapi.AgentServiceCheck` that the adapter sets; the zero
value has every field empty. -/
structure AgentServiceCheck where
  Script : String := ""
  Interval : String := ""
  Timeout : String := ""
  TTL : String := ""
  HTTP : String := ""
  deriving DecidableEq, Repr

/-- The fields of `consulapi.AgentServiceRegistration` that the adapter sets;
`Check` is a pointer, `none` being `nil`. -/
structure AgentServiceRegistration where
  ID : String := ""
  Name : String := ""
  Tags : List String := []
  Port : Int := 0
  Address : String := ""
  Check : Option AgentServiceCheck := none
  deriving DecidableEq, Repr

def DefaultInterval : String := "10s"

/-! ## Check builder -/

/-- Source `interpolateService`: both placeholders are replaced, the host IP
first and the host port second. -/
def interpolateService (script : String) (service : Service) : String :=
  let withIp := Replace script "$SERVICE_IP" service.Origin.HostIP
  let withPort := Replace withIp "$SERVICE_PORT" service.Origin.HostPort
  withPort

/-- A value that takes no part in a placeholder once substituted: it has no
`$`, it is not empty, and its first character is none of the characters of
the placeholder names. -/
def Substitutable (v : String) : Prop :=
  '$' ∉ v.data ∧ ∃ h t, v.data = h :: t ∧ h ∉ "SERVICE_IPORT".data

/-- A piece of a script text: literal text, or one of the two placeholders. -/
inductive Piece where
  | text (t : String)
  | hostIP
  | hostPort
  deriving DecidableEq, Repr

/-- A piece as it stands in the script: a placeholder is its token. -/
def Piece.source : Piece → String
  | .text t => t
  | .hostIP => "$SERVICE_IP"
  | .hostPort => "$SERVICE_PORT"

/-- A piece after substitution: the `$SERVICE_IP` placeholder is the host IP
of the origin, the `$SERVICE_PORT` placeholder its host port, text is kept. -/
def Piece.value (service : Service) : Piece → String
  | .text t => t
  | .hostIP => service.Origin.HostIP
  | .hostPort => service.Origin.HostPort

/-- The text made of the pieces in order, each written by `f`. -/
def render (f : Piece → String) : List Piece → String
  | [] => ""
  | p :: ps => f p ++ render f ps

/-- Lines 95-101 of `buildCheck`: the interval is set when the check has a
script or an HTTP URL. -/
def setInterval (service : Service) (check : AgentServiceCheck) : AgentServiceCheck :=
  if check.Script ≠ "" ∨ check.HTTP ≠ "" then
    if attr service.Attrs "check_interval" ≠ "" then
      { check with Interval := attr service.Attrs "check_interval" }
    else
      { check with Interval := DefaultInterval }
  else check

/-- Source `buildCheck`: `ok none` is the `nil` check; the error is the panic of
`ContainerID[:12]`. -/
def buildCheck (service : Service) : Except Panic (Option AgentServiceCheck) :=
  let check : AgentServiceCheck := {}
  if attr service.Attrs "check_http" ≠ "" then
    let check := { check with
      HTTP := "http://" ++ service.IP ++ ":" ++ formatInt service.Port
        ++ attr service.Attrs "check_http" }
    let check :=
      if attr service.Attrs "check_timeout" ≠ "" then
        { check with Timeout := attr service.Attrs "check_timeout" }
      else check
    .ok (some (setInterval service check))
  else if attr service.Attrs "check_cmd" ≠ "" then
    match sliceTo service.Origin.ContainerID 12 with
    | .error p => .error p
    | .ok short =>
      let check := { check with
        Script := "check-cmd " ++ short ++ " " ++ service.Origin.ExposedPort ++ " "
          ++ attr service.Attrs "check_cmd" }
      .ok (some (setInterval service check))
  else if attr service.Attrs "check_script" ≠ "" then
    let check := { check with
      Script := interpolateService (attr service.Attrs "check_script") service }
    .ok (some (setInterval service check))
  else if attr service.Attrs "check_ttl" ≠ "" then
    let check := { check with TTL := attr service.Attrs "check_ttl" }
    .ok (some (setInterval service check))
  else
    .ok none

/-! ## Backend client and adapter -/

/-- A call issued to the Consul client: `KV().Put`, `KV().DeleteTree`,
`Agent().ServiceRegister`, `Agent().ServiceDeregister`, `Agent().Services`. -/
inductive Call where
  | KVPut (key value : String)
  | KVDeleteTree (path : String)
  | ServiceRegister (registration : AgentServiceRegistration)
  | ServiceDeregister (id : String)
  | Services
  deriving DecidableEq, Repr

/-- The operations of `consulapi.Client` that the adapter uses, as functions of
a backend state `σ`: each returns its Go result and the next backend state.
`Services` returns the IDs (the keys of the returned map), the only part of the
listing that the adapter reads. -/
structure Client (σ : Type) where
  KVPut : String → String → σ → Option Error × σ
  KVDeleteTree : String → σ → Option Error × σ
  ServiceRegister : AgentServiceRegistration → σ → Option Error × σ
  ServiceDeregister : String → σ → Option Error × σ
  Services : σ → Except Error (List String) × σ

/-- Source `ConsulMetaAdapter`. -/
structure ConsulMetaAdapter (σ : Type) where
  client : Client σ
  path : String

/-- The backend state and the log of the calls issued so far, oldest first. -/
structure World (σ : Type) where
  backend : σ
  calls : List Call

/-- Issue one backend call: log it and run it on the backend state. -/
def World.invoke {σ α : Type} (w : World σ) (call : Call) (run : σ → α × σ) : α × World σ :=
  ((run w.backend).1, { backend := (run w.backend).2, calls := w.calls ++ [call] })

/-- The loop of lines 68-74 of `Register`: one `Put` per attribute; the error
of a `Put` is logged and dropped. -/
def putAttrs {σ : Type} (r : ConsulMetaAdapter σ) (basePath : String) :
    List (String × String) → World σ → World σ
  | [], w => w
  | (key, value) :: rest, w =>
    let path := basePath ++ "/" ++ key
    putAttrs r basePath rest (w.invoke (.KVPut path value) (r.client.KVPut path value)).2

/-- Source `Register`. -/
def Register {σ : Type} (r : ConsulMetaAdapter σ) (service : Service) (w : World σ) :
    Except Panic (Option Error) × World σ :=
  match sliceFrom r.path 1 with
  | .error p => (.error p, w)
  | .ok pfx =>
    match buildCheck service with
    | .error p => (.error p, w)
    | .ok check =>
      let registration : AgentServiceRegistration :=
        { ID := pfx ++ service.ID
          Name := service.Name
          Port := service.Port
          Tags := service.Tags
          Address := service.IP
          Check := check }
      match sliceFrom r.path 1 with
      | .error p => (.error p, w)
      | .ok pfx =>
        let basePath := pfx ++ "/" ++ service.Name ++ "/" ++ service.ID
        let w := putAttrs r basePath service.Attrs w
        let res := w.invoke (.ServiceRegister registration) (r.client.ServiceRegister registration)
        (.ok res.1, res.2)

/-- Source `Deregister`. -/
def Deregister {σ : Type} (r : ConsulMetaAdapter σ) (service : Service) (w : World σ) :
    Except Panic (Option Error) × World σ :=
  match sliceFrom r.path 1 with
  | .error p => (.error p, w)
  | .ok pfx =>
    let path := pfx ++ "/" ++ service.Name ++ "/" ++ service.ID
    let w := (w.invoke (.KVDeleteTree path) (r.client.KVDeleteTree path)).2
    match sliceFrom r.path 1 with
    | .error p => (.error p, w)
    | .ok pfx =>
      let id := pfx ++ service.ID
      let res := w.invoke (.ServiceDeregister id) (r.client.ServiceDeregister id)
      (.ok res.1, res.2)

/-- Source `Refresh`: a no-op. -/
def Refresh {σ : Type} (_r : ConsulMetaAdapter σ) (_service : Service) (w : World σ) :
    Except Panic (Option Error) × World σ :=
  (.ok none, w)

/-- The loop of lines 127-141 of `Cleanup` over the listed IDs.  A
`validServices` binding to `none` is a `nil` service pointer. -/
def cleanupLoop {σ : Type} (r : ConsulMetaAdapter σ)
    (validServices : List (String × Option Service)) :
    List String → World σ → Except Panic Unit × World σ
  | [], w => (.ok (), w)
  | id :: rest, w =>
    match sliceFrom r.path 1 with
    | .error p => (.error p, w)
    | .ok pfx =>
      if !HasPrefix id pfx then cleanupLoop r validServices rest w
      else
        match sliceFrom r.path 1 with
        | .error p => (.error p, w)
        | .ok pfx =>
          let idWithoutPrefix := TrimPrefix id pfx
          match validServices.lookup idWithoutPrefix with
          | some (some _) => cleanupLoop r validServices rest w
          | _ =>
            cleanupLoop r validServices rest
              (w.invoke (.ServiceDeregister id) (r.client.ServiceDeregister id)).2

/-- Source `Cleanup`. -/
def Cleanup {σ : Type} (r : ConsulMetaAdapter σ)
    (validServices : List (String × Option Service)) (w : World σ) :
    Except Panic (Option Error) × World σ :=
  let listed := w.invoke .Services r.client.Services
  match listed.1 with
  | .error err => (.ok (some err), listed.2)
  | .ok agentServices =>
    match cleanupLoop r validServices agentServices listed.2 with
    | (.error p, w) => (.error p, w)
    | (.ok (), w) => (.ok none, w)

/-! ## Reading the call log -/

/-- The registry entries submitted by `ServiceRegister` calls, in order. -/
def submitted (calls : List Call) : List AgentServiceRegistration :=
  calls.filterMap fun
    | .ServiceRegister registration => some registration
    | _ => none

/-- The IDs of the `ServiceDeregister` calls, in order. -/
def deregistered (calls : List Call) : List String :=
  calls.filterMap fun
    | .ServiceDeregister id => some id
    | _ => none

/-- The (key, value) pairs of the `KV().Put` calls, in order. -/
def written (calls : List Call) : List (String × String) :=
  calls.filterMap fun
    | .KVPut key value => some (key, value)
    | _ => none

/-- The paths of the `KV().DeleteTree` calls, in order. -/
def deletedTrees (calls : List Call) : List String :=
  calls.filterMap fun
    | .KVDeleteTree path => some path
    | _ => none

/-- The orphan test of the specification, in its words: the entry ID begins
with the namespace prefix, and the ID with the prefix stripped is absent from
the valid-services mapping or mapped to nil. -/
def IsOrphan (pfx : String) (validServices : List (String × Option Service))
    (id : String) : Prop :=
  ∃ bare : String, id = pfx ++ bare ∧
    (validServices.lookup bare = none ∨ validServices.lookup bare = some none)

instance (pfx : String) (validServices : List (String × Option Service)) (id : String) :
    Decidable (IsOrphan pfx validServices id) :=
  decidable_of_iff
    (pfx.data <+: id.data ∧
      (validServices.lookup (String.mk (id.data.drop pfx.data.length)) = none ∨
        validServices.lookup (String.mk (id.data.drop pfx.data.length)) = some none))
    (by
      constructor
      · rintro ⟨⟨t, ht⟩, hv⟩
        refine ⟨String.mk (id.data.drop pfx.data.length), ?_, hv⟩
        apply String.ext
        rw [String.data_append, ← ht]
        simp
      · rintro ⟨bare, rfl, hv⟩
        have hd : ((pfx ++ bare).data.drop pfx.data.length) = bare.data := by
          rw [String.data_append]
          simp
        rw [hd]
        exact ⟨⟨bare.data, by rw [String.data_append]⟩, hv⟩)

/-! ## Concrete backends and inputs -/

/-- A backend that follows a script: its state is the list of the outcomes of
the coming calls (`none` is success), one consumed per call, every call
succeeding once the list is used up; the agent lists `ids`. -/
def scriptedClient (ids : List String) : Client (List (Option Error)) where
  KVPut := fun _ _ st => (st.head?.join, st.tail)
  KVDeleteTree := fun _ st => (st.head?.join, st.tail)
  ServiceRegister := fun _ st => (st.head?.join, st.tail)
  ServiceDeregister := fun _ st => (st.head?.join, st.tail)
  Services := fun st =>
    (match st.head?.join with
      | some err => .error err
      | none => .ok ids, st.tail)

/-- An adapter mounted at `path` over the scripted backend. -/
def scriptedAdapter (path : String) (ids : List String) :
    ConsulMetaAdapter (List (Option Error)) :=
  { client := scriptedClient ids, path := path }

/-- The world before any call, the backend following `script`. -/
def World.start (script : List (Option Error)) : World (List (Option Error)) :=
  { backend := script, calls := [] }

/-- A service checked by `check_cmd` whose container ID has 3 characters. -/
def shortIdService : Service :=
  { ID := "w1", Name := "web", IP := "10.0.0.5", Port := 8080,
    Attrs := [("check_cmd", "ping"), ("owner", "ops")],
    Origin := { ContainerID := "abc", ExposedPort := "80", HostIP := "10.0.0.5", HostPort := "8080" } }

/-- A service checked by `check_cmd` with the container ID of the example. -/
def cmdService : Service :=
  { ID := "w1", Name := "web", IP := "10.0.0.5", Port := 8080,
    Attrs := [("check_cmd", "ping")],
    Origin := { ContainerID := "abcdef0123456789", ExposedPort := "80" } }

/-- A service with both `check_http` and `check_ttl`, and an interval. -/
def httpService : Service :=
  { ID := "w1", Name := "web", IP := "10.0.0.5", Port := 8080,
    Attrs := [("check_http", "/health"), ("check_ttl", "30s"), ("check_interval", "5s"),
      ("check_timeout", "2s")] }

/-- A service with `check_http` and no `check_interval`. -/
def plainHttpService : Service :=
  { ID := "w2", Name := "api", IP := "10.0.0.6", Port := 9090,
    Attrs := [("check_http", "/ping")] }

/-- A service with `check_ttl`, an interval and a timeout. -/
def ttlService : Service :=
  { ID := "w1", Name := "web", IP := "10.0.0.5", Port := 8080,
    Attrs := [("check_ttl", "30s"), ("check_interval", "5s"), ("check_timeout", "2s")] }

/-- A service whose script is the port placeholder alone and whose port is not
published (empty host port): the interpolated script is empty. -/
def emptyScriptService : Service :=
  { ID := "w1", Name := "web", IP := "10.0.0.5", Port := 8080,
    Attrs := [("check_script", "$SERVICE_PORT"), ("check_interval", "5s")],
    Origin := { HostIP := "10.0.0.5", HostPort := "" } }

/-- A service with two attributes and no check. -/
def webService : Service :=
  { ID := "w1", Name := "web", IP := "10.0.0.5", Port := 8080, Tags := ["blue"],
    Attrs := [("owner", "ops"), ("tier", "front")] }

/-- The origin of the interpolation example: host IP `10.0.0.5`, port `8080`. -/
def curlService : Service :=
  { ID := "w1", Name := "web", IP := "10.0.0.5", Port := 8080,
    Attrs := [("check_script", "curl $SERVICE_IP:$SERVICE_PORT/health")],
    Origin := { HostIP := "10.0.0.5", HostPort := "8080" } }

/-- A service whose port is not published: the host port is empty. -/
def unpublishedService : Service :=
  { ID := "w1", Name := "web", IP := "10.0.0.5", Port := 8080,
    Origin := { HostIP := "10.0.0.5", HostPort := "" } }

/-- A service whose host address is the one-letter host name `E`. -/
def namedHostService : Service :=
  { ID := "w1", Name := "web", IP := "10.0.0.5", Port := 8080,
    Origin := { HostIP := "E", HostPort := "8080" } }

/-! ## Adapter construction -/

/-- The fields of `url.URL` that `New` reads. -/
structure URL where
  Scheme : String := ""
  Host : String := ""
  Path : String := ""
  deriving DecidableEq, Repr

/-- Source `Factory.New`: the client is built for the host of the URI, or for
`defaultAddress` (the address of `consulapi.DefaultConfig`) when the host is
empty; `none` is the `log.Fatal` exit when the client cannot be built.  The
adapter keeps the path of the URI as it is. -/
def New {σ : Type} (defaultAddress : String) (newClient : String → Except Error (Client σ))
    (uri : URL) : Option (ConsulMetaAdapter σ) :=
  let address := if uri.Host ≠ "" then uri.Host else defaultAddress
  match newClient address with
  | .error _ => none
  | .ok client => some { client := client, path := uri.Path }

/-! ## An explicit backend state -/

/-- The registry entry ID or key/value path that a call acts on. -/
def Call.target : Call → Option String
  | .KVPut key _ => some key
  | .KVDeleteTree path => some path
  | .ServiceRegister registration => some registration.ID
  | .ServiceDeregister id => some id
  | .Services => none

/-- Modelled from the spec: the state of the registry backend, which is an
external collaborator: the agent-local service catalog and the key/value
store. -/
structure Backend where
  catalog : List AgentServiceRegistration := []
  kv : List (String × String) := []
  deriving DecidableEq, Repr

/-- Modelled from the spec: a backend on which every call succeeds.  `Put`
binds the key to the value; `DeleteTree(p)` removes every key that has `p` as
a string prefix; `ServiceRegister` stores the entry under its ID;
`ServiceDeregister` removes the entry of that ID from the listing; `Services`
lists the IDs of the catalog. -/
def memClient : Client Backend where
  KVPut := fun key value st =>
    (none, { st with kv := (key, value) :: st.kv.filter (fun e => e.1 ≠ key) })
  KVDeleteTree := fun path st =>
    (none, { st with kv := st.kv.filter (fun e => !HasPrefix e.1 path) })
  ServiceRegister := fun registration st =>
    (none, { st with
      catalog := registration :: st.catalog.filter (fun e => e.ID ≠ registration.ID) })
  ServiceDeregister := fun id st =>
    (none, { st with catalog := st.catalog.filter (fun e => e.ID ≠ id) })
  Services := fun st => (.ok (st.catalog.map (fun e => e.ID)), st)

/-- An adapter mounted at `path` over the explicit backend. -/
def memAdapter (path : String) : ConsulMetaAdapter Backend :=
  { client := memClient, path := path }

/-- The world before any call, over the explicit backend state `st`. -/
def World.over (st : Backend) : World Backend :=
  { backend := st, calls := [] }

/-- Port 80 of the container `web` on `host`, named `web`, with an owner. -/
def port80Service : Service :=
  { ID := "host:web:80", Name := "web", IP := "10.0.0.5", Port := 80,
    Attrs := [("owner", "ops")] }

/-- Port 8080 of the same container, under the same service name. -/
def port8080Service : Service :=
  { ID := "host:web:8080", Name := "web", IP := "10.0.0.5", Port := 8080,
    Attrs := [("owner", "dev"), ("tier", "front")] }

/-! ## Lemmas on the Go primitives -/

theorem append_ne_empty_left (a b : String) (h : a ≠ "") : a ++ b ≠ "" := by
  intro hab
  apply h
  have hd := congrArg String.data hab
  rw [String.data_append] at hd
  exact String.ext (List.append_eq_nil.mp hd).1

theorem append_ne_empty_right (a b : String) (h : b ≠ "") : a ++ b ≠ "" := by
  intro hab
  apply h
  have hd := congrArg String.data hab
  rw [String.data_append] at hd
  exact String.ext (List.append_eq_nil.mp hd).2

theorem sliceTo_ok (s : String) (n : Nat) (h : n ≤ s.length) :
    sliceTo s n = .ok ⟨s.data.take n⟩ := by
  simp [sliceTo, h]

theorem sliceTo_panic (s : String) (n : Nat) (h : s.length < n) :
    sliceTo s n = .error .sliceBounds := by
  simp [sliceTo, Nat.not_le.mpr h]

/-! ## Lemmas on `Replace` -/

/-- A suffix of `a ++ b` that starts with a character absent from `a` is a
suffix of `b`. -/
theorem suffix_of_suffix_append {d : Char} {a b L : List Char} (hd : d ∉ a)
    (h : (d :: L) <:+ a ++ b) : (d :: L) <:+ b := by
  induction a with
  | nil => simpa using h
  | cons x a ih =>
    rw [List.cons_append, List.suffix_cons_iff] at h
    rcases h with h | h
    · injection h with h1 h2
      subst h1
      simp at hd
    · exact ih (fun hm => hd (List.mem_cons_of_mem _ hm)) h

/-- A suffix of the result of a replacement that starts with a character `d`
absent from the replacement comes from a suffix of the text that starts with
the same `d`, where no match starts, and is the replacement of its tail. -/
theorem replaceFrom_suffix (old new : List Char) (d : Char) (hd : d ∉ new)
    (s : List Char) :
    ∀ (k : Nat) (L : List Char), (d :: L) <:+ replaceFrom old new k s →
      ∃ s', (d :: s') <:+ s ∧ ¬ old <+: (d :: s') ∧ L = replaceFrom old new 0 s' := by
  induction s with
  | nil =>
    intro k L h
    have hnil : replaceFrom old new k [] = [] := by cases k <;> rfl
    rw [hnil] at h
    simp at h
  | cons c cs ih =>
    intro k L h
    cases k with
    | succ k =>
      have hstep : replaceFrom old new (k + 1) (c :: cs) = replaceFrom old new k cs := rfl
      rw [hstep] at h
      obtain ⟨s', hs', hno, hL⟩ := ih k L h
      exact ⟨s', hs'.trans (List.suffix_cons c cs), hno, hL⟩
    | zero =>
      by_cases hpre : old.isPrefixOf (c :: cs) = true
      · have hstep : replaceFrom old new 0 (c :: cs)
            = new ++ replaceFrom old new (old.length - 1) cs := by
          simp only [replaceFrom, hpre, if_true]
        rw [hstep] at h
        obtain ⟨s', hs', hno, hL⟩ := ih _ L (suffix_of_suffix_append hd h)
        exact ⟨s', hs'.trans (List.suffix_cons c cs), hno, hL⟩
      · have hstep : replaceFrom old new 0 (c :: cs) = c :: replaceFrom old new 0 cs := by
          simp only [replaceFrom, hpre]
          rfl
        rw [hstep, List.suffix_cons_iff] at h
        rcases h with h | h
        · injection h with h1 h2
          subst h1
          refine ⟨cs, List.suffix_refl _, ?_, h2⟩
          intro hp
          exact hpre (List.isPrefixOf_iff_prefix.mpr hp)
        · obtain ⟨s', hs', hno, hL⟩ := ih 0 L h
          exact ⟨s', hs'.trans (List.suffix_cons c cs), hno, hL⟩

/-- A word without the first character of the replacement that starts the
result of a replacement starts the text as well. -/
theorem prefix_of_prefix_replaceFrom (old new : List Char) (h : Char) (t : List Char)
    (hnew : new = h :: t) (q : List Char) :
    ∀ s : List Char, h ∉ q → q <+: replaceFrom old new 0 s → q <+: s := by
  induction q with
  | nil =>
    intro s _ _
    exact List.nil_prefix
  | cons x q ih =>
    intro s hq hpre
    cases s with
    | nil =>
      have hnil : replaceFrom old new 0 [] = [] := rfl
      rw [hnil] at hpre
      simp at hpre
    | cons c cs =>
      by_cases hold : old.isPrefixOf (c :: cs) = true
      · have hstep : replaceFrom old new 0 (c :: cs)
            = new ++ replaceFrom old new (old.length - 1) cs := by
          simp only [replaceFrom, hold, if_true]
        rw [hstep, hnew, List.cons_append, List.cons_prefix_cons] at hpre
        exact absurd (hpre.1 ▸ List.mem_cons_self x q) hq
      · have hstep : replaceFrom old new 0 (c :: cs) = c :: replaceFrom old new 0 cs := by
          simp only [replaceFrom, hold]
          rfl
        rw [hstep, List.cons_prefix_cons] at hpre
        rw [List.cons_prefix_cons]
        exact ⟨hpre.1, ih cs (fun hm => hq (List.mem_cons_of_mem _ hm)) hpre.2⟩

/-- An occurrence of `d :: q` in the result of a replacement, where the
replacement has no `d` and starts with a character that is not in `q`, is an
occurrence in the text at a place where no match starts. -/
theorem occurrence_of_occurrence_replaceFrom (old new q : List Char) (d h : Char)
    (t : List Char) (hd : d ∉ new) (hnew : new = h :: t) (hq : h ∉ q) (s : List Char)
    (hocc : (d :: q) <:+: replaceFrom old new 0 s) :
    ∃ s', (d :: s') <:+ s ∧ ¬ old <+: (d :: s') ∧ (d :: q) <+: (d :: s') := by
  obtain ⟨u, hu1, hu2⟩ := List.infix_iff_prefix_suffix.mp hocc
  cases u with
  | nil => simp at hu1
  | cons e L =>
    rw [List.cons_prefix_cons] at hu1
    obtain ⟨he, hqL⟩ := hu1
    subst he
    obtain ⟨s', hs', hno, hL⟩ := replaceFrom_suffix old new d hd s 0 L hu2
    subst hL
    refine ⟨s', hs', hno, ?_⟩
    rw [List.cons_prefix_cons]
    exact ⟨rfl, prefix_of_prefix_replaceFrom old new h t hnew q s' hq hqL⟩

/-- The replaced word does not occur in the result. -/
theorem not_infix_replaceFrom_self (new q : List Char) (d h : Char) (t : List Char)
    (hd : d ∉ new) (hnew : new = h :: t) (hq : h ∉ q) (s : List Char) :
    ¬ (d :: q) <:+: replaceFrom (d :: q) new 0 s := by
  intro hocc
  obtain ⟨s', _, hno, hpre⟩ :=
    occurrence_of_occurrence_replaceFrom (d :: q) new q d h t hd hnew hq s hocc
  exact hno hpre

/-- Replacing one word does not create an occurrence of another. -/
theorem infix_of_infix_replaceFrom (old new q : List Char) (d h : Char) (t : List Char)
    (hd : d ∉ new) (hnew : new = h :: t) (hq : h ∉ q) (s : List Char)
    (hocc : (d :: q) <:+: replaceFrom old new 0 s) : (d :: q) <:+: s := by
  obtain ⟨s', hs', _, hpre⟩ :=
    occurrence_of_occurrence_replaceFrom old new q d h t hd hnew hq s hocc
  exact List.infix_iff_prefix_suffix.mpr ⟨d :: s', hpre, hs'⟩

theorem replaceFrom_skip (old new : List Char) (s : List Char) :
    ∀ k : Nat, replaceFrom old new k s = replaceFrom old new 0 (s.drop k) := by
  induction s with
  | nil =>
    intro k
    cases k <;> rfl
  | cons c cs ih =>
    intro k
    cases k with
    | zero => rfl
    | succ k => exact ih k

theorem replaceFrom_no_match (old new : List Char) (c : Char) (cs : List Char)
    (h : ¬ old <+: c :: cs) :
    replaceFrom old new 0 (c :: cs) = c :: replaceFrom old new 0 cs := by
  have hpre : ¬ old.isPrefixOf (c :: cs) = true := fun hp =>
    h (List.isPrefixOf_iff_prefix.mp hp)
  simp only [replaceFrom, hpre]
  rfl

theorem replaceFrom_match (d : Char) (q new rest : List Char) :
    replaceFrom (d :: q) new 0 (d :: q ++ rest) = new ++ replaceFrom (d :: q) new 0 rest := by
  have hpre : (d :: q).isPrefixOf (d :: (q ++ rest)) = true :=
    List.isPrefixOf_iff_prefix.mpr ⟨rest, rfl⟩
  have hstep : replaceFrom (d :: q) new 0 (d :: (q ++ rest))
      = new ++ replaceFrom (d :: q) new ((d :: q).length - 1) (q ++ rest) := by
    simp only [replaceFrom, hpre, if_true]
  have hdrop : (q ++ rest).drop ((d :: q).length - 1) = rest := List.drop_left' (by simp)
  rw [List.cons_append, hstep, replaceFrom_skip, hdrop]

/-- Text without the first character of the replaced word is copied. -/
theorem replaceFrom_append_left (d : Char) (q new : List Char) (a rest : List Char)
    (ha : d ∉ a) :
    replaceFrom (d :: q) new 0 (a ++ rest) = a ++ replaceFrom (d :: q) new 0 rest := by
  induction a with
  | nil => rfl
  | cons x a ih =>
    have hx : ¬ (d :: q) <+: x :: (a ++ rest) := by
      intro hp
      rw [List.cons_prefix_cons] at hp
      exact ha (hp.1 ▸ List.mem_cons_self d a)
    rw [List.cons_append, replaceFrom_no_match _ _ _ _ hx,
      ih (fun hm => ha (List.mem_cons_of_mem _ hm))]
    rfl

/-- The two replacements of `interpolateService`, one after the other, read
the script as a sequence of pieces and write each placeholder as its value,
provided the host IP has no `$` and starts with a character that is not in
the name of the port placeholder. -/
theorem interpolate_pieces (service : Service) (h : Char) (t : List Char)
    (hd : '$' ∉ service.Origin.HostIP.data) (hnew : service.Origin.HostIP.data = h :: t)
    (hq : h ∉ "SERVICE_PORT".data) :
    ∀ (n : Nat) (s : List Char), s.length ≤ n →
      ∃ pieces : List Piece, s = (render Piece.source pieces).data ∧
        replaceFrom "$SERVICE_PORT".data service.Origin.HostPort.data 0
            (replaceFrom "$SERVICE_IP".data service.Origin.HostIP.data 0 s)
          = (render (Piece.value service) pieces).data := by
  have eIP : "$SERVICE_IP".data = '$' :: "SERVICE_IP".data := rfl
  have ePORT : "$SERVICE_PORT".data = '$' :: "SERVICE_PORT".data := rfl
  have hqd : '$' ∉ "SERVICE_PORT".data := by decide
  intro n
  induction n with
  | zero =>
    intro s hs
    have hnil : s = [] := List.length_eq_zero.mp (Nat.le_zero.mp hs)
    subst hnil
    exact ⟨[], rfl, rfl⟩
  | succ n ih =>
    intro s hs
    cases s with
    | nil => exact ⟨[], rfl, rfl⟩
    | cons c cs =>
      by_cases hIP : "$SERVICE_IP".data <+: c :: cs
      · obtain ⟨rest, hrest⟩ := hIP
        have hlen : rest.length ≤ n := by
          have hl := congrArg List.length hrest
          have h11 : "$SERVICE_IP".data.length = 11 := rfl
          have hcons : (c :: cs).length = cs.length + 1 := rfl
          rw [List.length_append, h11, hcons] at hl
          rw [hcons] at hs
          omega
        obtain ⟨ps, hsrc, hval⟩ := ih rest hlen
        refine ⟨Piece.hostIP :: ps, ?_, ?_⟩
        · show c :: cs = ("$SERVICE_IP" ++ render Piece.source ps).data
          rw [String.data_append, ← hsrc, hrest]
        · show _ = (service.Origin.HostIP ++ render (Piece.value service) ps).data
          rw [String.data_append, ← hval, ← hrest, eIP, replaceFrom_match, ePORT,
            replaceFrom_append_left _ _ _ _ _ hd]
      · by_cases hPORT : "$SERVICE_PORT".data <+: c :: cs
        · obtain ⟨rest, hrest⟩ := hPORT
          have hlen : rest.length ≤ n := by
            have hl := congrArg List.length hrest
            have h13 : "$SERVICE_PORT".data.length = 13 := rfl
            have hcons : (c :: cs).length = cs.length + 1 := rfl
            rw [List.length_append, h13, hcons] at hl
            rw [hcons] at hs
            omega
          obtain ⟨ps, hsrc, hval⟩ := ih rest hlen
          refine ⟨Piece.hostPort :: ps, ?_, ?_⟩
          · show c :: cs = ("$SERVICE_PORT" ++ render Piece.source ps).data
            rw [String.data_append, ← hsrc, hrest]
          · show _ = (service.Origin.HostPort ++ render (Piece.value service) ps).data
            have hcopy : replaceFrom "$SERVICE_IP".data service.Origin.HostIP.data 0 (c :: cs)
                = "$SERVICE_PORT".data
                  ++ replaceFrom "$SERVICE_IP".data service.Origin.HostIP.data 0 rest := by
              rw [replaceFrom_no_match _ _ _ _ hIP]
              have hcs : c :: cs = '$' :: ("SERVICE_PORT".data ++ rest) := by
                rw [← hrest, ePORT]
                rfl
              injection hcs with hc hcs
              rw [hc, hcs, eIP, replaceFrom_append_left _ _ _ _ _ hqd, ePORT]
              rfl
            rw [String.data_append, ← hval, hcopy, ePORT, replaceFrom_match]
        · have hstep : replaceFrom "$SERVICE_IP".data service.Origin.HostIP.data 0 (c :: cs)
              = c :: replaceFrom "$SERVICE_IP".data service.Origin.HostIP.data 0 cs :=
            replaceFrom_no_match _ _ _ _ hIP
          have hno : ¬ "$SERVICE_PORT".data <+:
              c :: replaceFrom "$SERVICE_IP".data service.Origin.HostIP.data 0 cs := by
            intro hp
            apply hPORT
            rw [ePORT, List.cons_prefix_cons] at hp
            rw [ePORT, List.cons_prefix_cons]
            exact ⟨hp.1, prefix_of_prefix_replaceFrom _ _ h t hnew _ cs hq hp.2⟩
          have hlen : cs.length ≤ n := by
            rw [List.length_cons] at hs
            omega
          obtain ⟨ps, hsrc, hval⟩ := ih cs hlen
          refine ⟨Piece.text (String.mk [c]) :: ps, ?_, ?_⟩
          · show c :: cs = (String.mk [c] ++ render Piece.source ps).data
            rw [String.data_append, ← hsrc]
            rfl
          · show _ = (String.mk [c] ++ render (Piece.value service) ps).data
            rw [String.data_append, ← hval, hstep, replaceFrom_no_match _ _ _ _ hno]
            rfl

/-! ## Lemmas on `buildCheck`, one per branch -/

theorem setInterval_unpolled (s : Service) (c : AgentServiceCheck)
    (hs : c.Script = "") (hh : c.HTTP = "") : setInterval s c = c := by
  simp [setInterval, hs, hh]

theorem setInterval_polled (s : Service) (c : AgentServiceCheck)
    (h : c.Script ≠ "" ∨ c.HTTP ≠ "") :
    setInterval s c =
      { c with
        Interval := if attr s.Attrs "check_interval" ≠ "" then attr s.Attrs "check_interval"
                    else DefaultInterval } := by
  unfold setInterval
  rw [if_pos h]
  split <;> rfl

theorem buildCheck_http (s : Service) (h : attr s.Attrs "check_http" ≠ "") :
    buildCheck s = .ok (some (setInterval s
      { HTTP := "http://" ++ s.IP ++ ":" ++ formatInt s.Port ++ attr s.Attrs "check_http"
        Timeout := attr s.Attrs "check_timeout" })) := by
  unfold buildCheck
  simp only [if_pos h]
  by_cases ht : attr s.Attrs "check_timeout" = ""
  · simp [ht]
  · simp [ht]

theorem buildCheck_cmd (s : Service) (h1 : attr s.Attrs "check_http" = "")
    (h2 : attr s.Attrs "check_cmd" ≠ "") (h3 : 12 ≤ s.Origin.ContainerID.length) :
    buildCheck s = .ok (some (setInterval s
      { Script := "check-cmd " ++ ⟨s.Origin.ContainerID.data.take 12⟩ ++ " "
          ++ s.Origin.ExposedPort ++ " " ++ attr s.Attrs "check_cmd" })) := by
  unfold buildCheck
  simp [h1, h2, sliceTo_ok _ _ h3]

theorem buildCheck_cmd_panic (s : Service) (h1 : attr s.Attrs "check_http" = "")
    (h2 : attr s.Attrs "check_cmd" ≠ "") (h3 : s.Origin.ContainerID.length < 12) :
    buildCheck s = .error .sliceBounds := by
  unfold buildCheck
  simp [h1, h2, sliceTo_panic _ _ h3]

theorem buildCheck_script (s : Service) (h1 : attr s.Attrs "check_http" = "")
    (h2 : attr s.Attrs "check_cmd" = "") (h3 : attr s.Attrs "check_script" ≠ "") :
    buildCheck s = .ok (some (setInterval s
      { Script := interpolateService (attr s.Attrs "check_script") s })) := by
  unfold buildCheck
  simp [h1, h2, h3]

theorem buildCheck_ttl (s : Service) (h1 : attr s.Attrs "check_http" = "")
    (h2 : attr s.Attrs "check_cmd" = "") (h3 : attr s.Attrs "check_script" = "")
    (h4 : attr s.Attrs "check_ttl" ≠ "") :
    buildCheck s = .ok (some { TTL := attr s.Attrs "check_ttl" }) := by
  unfold buildCheck
  simp [h1, h2, h3, h4, setInterval]

theorem buildCheck_none (s : Service) (h1 : attr s.Attrs "check_http" = "")
    (h2 : attr s.Attrs "check_cmd" = "") (h3 : attr s.Attrs "check_script" = "")
    (h4 : attr s.Attrs "check_ttl" = "") :
    buildCheck s = .ok none := by
  unfold buildCheck
  simp [h1, h2, h3, h4]

theorem http_url_ne_empty (s : Service) :
    "http://" ++ s.IP ++ ":" ++ formatInt s.Port ++ attr s.Attrs "check_http" ≠ "" := by
  apply append_ne_empty_left
  apply append_ne_empty_left
  apply append_ne_empty_left
  apply append_ne_empty_left
  decide

theorem cmd_script_ne_empty (a b c : String) :
    "check-cmd " ++ a ++ " " ++ b ++ " " ++ c ≠ "" := by
  apply append_ne_empty_left
  apply append_ne_empty_left
  apply append_ne_empty_left
  apply append_ne_empty_left
  apply append_ne_empty_left
  decide

theorem setInterval_HTTP (s : Service) (c : AgentServiceCheck) :
    (setInterval s c).HTTP = c.HTTP := by
  unfold setInterval; split_ifs <;> rfl

theorem setInterval_Script (s : Service) (c : AgentServiceCheck) :
    (setInterval s c).Script = c.Script := by
  unfold setInterval; split_ifs <;> rfl

theorem setInterval_TTL (s : Service) (c : AgentServiceCheck) :
    (setInterval s c).TTL = c.TTL := by
  unfold setInterval; split_ifs <;> rfl

theorem setInterval_Timeout (s : Service) (c : AgentServiceCheck) :
    (setInterval s c).Timeout = c.Timeout := by
  unfold setInterval; split_ifs <;> rfl

/-- Whatever the branch, a check that `buildCheck` returns outside the HTTP
branch has no timeout. -/
theorem buildCheck_timeout_of_not_http (s : Service) (h1 : attr s.Attrs "check_http" = "")
    (c : AgentServiceCheck) (hc : buildCheck s = .ok (some c)) : c.Timeout = "" := by
  by_cases h2 : attr s.Attrs "check_cmd" = ""
  · by_cases h3 : attr s.Attrs "check_script" = ""
    · by_cases h4 : attr s.Attrs "check_ttl" = ""
      · rw [buildCheck_none s h1 h2 h3 h4] at hc
        cases hc
      · rw [buildCheck_ttl s h1 h2 h3 h4] at hc
        cases hc
        rfl
    · rw [buildCheck_script s h1 h2 h3] at hc
      cases hc
      rw [setInterval_Timeout]
  · by_cases h3 : 12 ≤ s.Origin.ContainerID.length
    · rw [buildCheck_cmd s h1 h2 h3] at hc
      cases hc
      rw [setInterval_Timeout]
    · rw [buildCheck_cmd_panic s h1 h2 (Nat.not_le.mp h3)] at hc
      cases hc

/-! ## Lemmas on the adapter -/

theorem putAttrs_calls {σ : Type} (r : ConsulMetaAdapter σ) (basePath : String)
    (attrs : List (String × String)) (w : World σ) :
    (putAttrs r basePath attrs w).calls =
      w.calls ++ attrs.map (fun kv => Call.KVPut (basePath ++ "/" ++ kv.1) kv.2) := by
  induction attrs generalizing w with
  | nil => simp [putAttrs]
  | cons kv rest ih =>
    obtain ⟨key, value⟩ := kv
    simp [putAttrs, ih, World.invoke]

theorem Register_of_ok {σ : Type} (r : ConsulMetaAdapter σ) (service : Service) (w : World σ)
    (pfx : String) (check : Option AgentServiceCheck)
    (hp : sliceFrom r.path 1 = .ok pfx) (hc : buildCheck service = .ok check) :
    Register r service w =
      (.ok ((putAttrs r (pfx ++ "/" ++ service.Name ++ "/" ++ service.ID) service.Attrs
          w).invoke
            (.ServiceRegister
              { ID := pfx ++ service.ID, Name := service.Name, Port := service.Port,
                Tags := service.Tags, Address := service.IP, Check := check })
            (r.client.ServiceRegister
              { ID := pfx ++ service.ID, Name := service.Name, Port := service.Port,
                Tags := service.Tags, Address := service.IP, Check := check })).1,
        ((putAttrs r (pfx ++ "/" ++ service.Name ++ "/" ++ service.ID) service.Attrs
          w).invoke
            (.ServiceRegister
              { ID := pfx ++ service.ID, Name := service.Name, Port := service.Port,
                Tags := service.Tags, Address := service.IP, Check := check })
            (r.client.ServiceRegister
              { ID := pfx ++ service.ID, Name := service.Name, Port := service.Port,
                Tags := service.Tags, Address := service.IP, Check := check })).2) := by
  simp [Register, hp, hc]

theorem Register_calls {σ : Type} (r : ConsulMetaAdapter σ) (service : Service) (w : World σ)
    (pfx : String) (check : Option AgentServiceCheck)
    (hp : sliceFrom r.path 1 = .ok pfx) (hc : buildCheck service = .ok check) :
    (Register r service w).2.calls =
      w.calls
        ++ service.Attrs.map (fun kv =>
            Call.KVPut (pfx ++ "/" ++ service.Name ++ "/" ++ service.ID ++ "/" ++ kv.1) kv.2)
        ++ [Call.ServiceRegister
            { ID := pfx ++ service.ID, Name := service.Name, Port := service.Port,
              Tags := service.Tags, Address := service.IP, Check := check }] := by
  rw [Register_of_ok r service w pfx check hp hc]
  simp [World.invoke, putAttrs_calls]

theorem Register_panic_of_buildCheck {σ : Type} (r : ConsulMetaAdapter σ) (service : Service)
    (w : World σ) (p : Panic) (hc : buildCheck service = .error p) :
    ∃ q, Register r service w = (.error q, w) := by
  unfold Register
  cases hs : sliceFrom r.path 1 with
  | error q => exact ⟨q, rfl⟩
  | ok pfx => exact ⟨p, by simp [hc]⟩

theorem Deregister_of_ok {σ : Type} (r : ConsulMetaAdapter σ) (service : Service)
    (w : World σ) (pfx : String) (hp : sliceFrom r.path 1 = .ok pfx) :
    Deregister r service w =
      (.ok (((w.invoke (.KVDeleteTree (pfx ++ "/" ++ service.Name ++ "/" ++ service.ID))
          (r.client.KVDeleteTree (pfx ++ "/" ++ service.Name ++ "/" ++ service.ID))).2).invoke
            (.ServiceDeregister (pfx ++ service.ID))
            (r.client.ServiceDeregister (pfx ++ service.ID))).1,
        (((w.invoke (.KVDeleteTree (pfx ++ "/" ++ service.Name ++ "/" ++ service.ID))
          (r.client.KVDeleteTree (pfx ++ "/" ++ service.Name ++ "/" ++ service.ID))).2).invoke
            (.ServiceDeregister (pfx ++ service.ID))
            (r.client.ServiceDeregister (pfx ++ service.ID))).2) := by
  simp [Deregister, hp]

theorem Deregister_calls {σ : Type} (r : ConsulMetaAdapter σ) (service : Service)
    (w : World σ) (pfx : String) (hp : sliceFrom r.path 1 = .ok pfx) :
    (Deregister r service w).2.calls =
      w.calls ++ [Call.KVDeleteTree (pfx ++ "/" ++ service.Name ++ "/" ++ service.ID),
        Call.ServiceDeregister (pfx ++ service.ID)] := by
  rw [Deregister_of_ok r service w pfx hp]
  simp [World.invoke]

theorem isOrphan_iff (pfx : String) (validServices : List (String × Option Service))
    (id : String) :
    IsOrphan pfx validServices id ↔
      HasPrefix id pfx = true ∧
        (validServices.lookup (TrimPrefix id pfx) = none ∨
          validServices.lookup (TrimPrefix id pfx) = some none) := by
  unfold IsOrphan
  constructor
  · rintro ⟨bare, rfl, hv⟩
    have hpre : HasPrefix (pfx ++ bare) pfx = true := by
      simp [HasPrefix, String.data_append]
    have htrim : TrimPrefix (pfx ++ bare) pfx = bare := by
      unfold TrimPrefix
      rw [if_pos hpre]
      apply String.ext
      show List.drop pfx.length (pfx ++ bare).data = bare.data
      rw [String.data_append]
      exact List.drop_left' rfl
    rw [htrim]
    exact ⟨hpre, hv⟩
  · rintro ⟨hpre, hv⟩
    refine ⟨TrimPrefix id pfx, ?_, hv⟩
    unfold TrimPrefix
    rw [if_pos hpre]
    apply String.ext
    rw [String.data_append]
    unfold HasPrefix at hpre
    rw [List.isPrefixOf_iff_prefix] at hpre
    obtain ⟨t, ht⟩ := hpre
    show id.data = pfx.data ++ List.drop pfx.length id.data
    have hd : List.drop pfx.length (pfx.data ++ t) = t := List.drop_left' rfl
    rw [← ht, hd]

theorem cleanupLoop_of_ok {σ : Type} (r : ConsulMetaAdapter σ)
    (validServices : List (String × Option Service)) (pfx : String)
    (hp : sliceFrom r.path 1 = .ok pfx) (ids : List String) (w : World σ) :
    (cleanupLoop r validServices ids w).1 = .ok () ∧
    (cleanupLoop r validServices ids w).2.calls =
      w.calls ++ (ids.filter fun id => decide (IsOrphan pfx validServices id)).map
        Call.ServiceDeregister := by
  induction ids generalizing w with
  | nil => simp [cleanupLoop]
  | cons id rest ih =>
    unfold cleanupLoop
    simp only [hp]
    by_cases hpre : HasPrefix id pfx = true
    · cases hl : validServices.lookup (TrimPrefix id pfx) with
      | none =>
        have ho : IsOrphan pfx validServices id :=
          (isOrphan_iff pfx validServices id).mpr ⟨hpre, Or.inl hl⟩
        simp [hpre, hl, ho, ih, World.invoke]
      | some v =>
        cases v with
        | none =>
          have ho : IsOrphan pfx validServices id :=
            (isOrphan_iff pfx validServices id).mpr ⟨hpre, Or.inr hl⟩
          simp [hpre, hl, ho, ih, World.invoke]
        | some svc =>
          have ho : ¬ IsOrphan pfx validServices id := by
            intro h
            have h2 := ((isOrphan_iff pfx validServices id).mp h).2
            rw [hl] at h2
            rcases h2 with h2 | h2 <;> cases h2
          simp [hpre, hl, ho, ih]
    · have ho : ¬ IsOrphan pfx validServices id := fun h =>
        hpre ((isOrphan_iff pfx validServices id).mp h).1
      simp [hpre, ho, ih]

/-! ## Claims on the check builder -/

/-- C1, as stated, fails: `shortIdService` has a non-empty `check_cmd`, so not
all four attributes are empty, yet `buildCheck` returns no check for it: it
panics on `ContainerID[:12]`. -/
theorem buildCheck_precedence_counterexample :
    attr shortIdService.Attrs "check_cmd" ≠ "" ∧
    buildCheck shortIdService = .error .sliceBounds ∧
    ¬ ∃ c, buildCheck shortIdService = .ok (some c) := by
  have h : buildCheck shortIdService = .error .sliceBounds := by decide
  refine ⟨by decide, h, ?_⟩
  rintro ⟨c, hc⟩
  rw [h] at hc
  cases hc

/-- C1, amended: `buildCheck` returns the nil check exactly when `check_http`,
`check_cmd`, `check_script` and `check_ttl` are all absent or empty; otherwise,
unless `check_cmd` is the first non-empty attribute and the container ID is
shorter than 12, it returns a check in which only the field of the first
non-empty attribute in that order can be set: HTTP (non-empty) for
`check_http`, Script for `check_cmd` (non-empty) and `check_script`, TTL
(non-empty) for `check_ttl`, the fields of the other variants being empty
whatever the later attributes hold. -/
theorem buildCheck_precedence (s : Service) :
    (buildCheck s = .ok none ↔
      attr s.Attrs "check_http" = "" ∧ attr s.Attrs "check_cmd" = "" ∧
      attr s.Attrs "check_script" = "" ∧ attr s.Attrs "check_ttl" = "") ∧
    (attr s.Attrs "check_http" ≠ "" →
      ∃ c, buildCheck s = .ok (some c) ∧ c.HTTP ≠ "" ∧ c.Script = "" ∧ c.TTL = "") ∧
    (attr s.Attrs "check_http" = "" → attr s.Attrs "check_cmd" ≠ "" →
      12 ≤ s.Origin.ContainerID.length →
      ∃ c, buildCheck s = .ok (some c) ∧ c.Script ≠ "" ∧ c.HTTP = "" ∧ c.TTL = "") ∧
    (attr s.Attrs "check_http" = "" → attr s.Attrs "check_cmd" = "" →
      attr s.Attrs "check_script" ≠ "" →
      ∃ c, buildCheck s = .ok (some c) ∧ c.HTTP = "" ∧ c.TTL = "") ∧
    (attr s.Attrs "check_http" = "" → attr s.Attrs "check_cmd" = "" →
      attr s.Attrs "check_script" = "" → attr s.Attrs "check_ttl" ≠ "" →
      ∃ c, buildCheck s = .ok (some c) ∧ c.TTL ≠ "" ∧ c.HTTP = "" ∧ c.Script = "") := by
  refine ⟨⟨?_, ?_⟩, ?_, ?_, ?_, ?_⟩
  · intro hnil
    by_cases h1 : attr s.Attrs "check_http" = ""
    · by_cases h2 : attr s.Attrs "check_cmd" = ""
      · by_cases h3 : attr s.Attrs "check_script" = ""
        · by_cases h4 : attr s.Attrs "check_ttl" = ""
          · exact ⟨h1, h2, h3, h4⟩
          · rw [buildCheck_ttl s h1 h2 h3 h4] at hnil
            cases hnil
        · rw [buildCheck_script s h1 h2 h3] at hnil
          cases hnil
      · by_cases h3 : 12 ≤ s.Origin.ContainerID.length
        · rw [buildCheck_cmd s h1 h2 h3] at hnil
          cases hnil
        · rw [buildCheck_cmd_panic s h1 h2 (Nat.not_le.mp h3)] at hnil
          cases hnil
    · rw [buildCheck_http s h1] at hnil
      cases hnil
  · rintro ⟨h1, h2, h3, h4⟩
    exact buildCheck_none s h1 h2 h3 h4
  · intro h1
    refine ⟨_, buildCheck_http s h1, ?_, ?_, ?_⟩
    · rw [setInterval_HTTP]
      exact http_url_ne_empty s
    · rw [setInterval_Script]
    · rw [setInterval_TTL]
  · intro h1 h2 h3
    refine ⟨_, buildCheck_cmd s h1 h2 h3, ?_, ?_, ?_⟩
    · rw [setInterval_Script]
      exact cmd_script_ne_empty _ _ _
    · rw [setInterval_HTTP]
    · rw [setInterval_TTL]
  · intro h1 h2 h3
    refine ⟨_, buildCheck_script s h1 h2 h3, ?_, ?_⟩
    · rw [setInterval_HTTP]
    · rw [setInterval_TTL]
  · intro h1 h2 h3 h4
    exact ⟨_, buildCheck_ttl s h1 h2 h3 h4, h4, rfl, rfl⟩

/-- C1, amended, at a service with both `check_http` and `check_ttl`: the check
has a non-empty HTTP field and an empty TTL. -/
theorem buildCheck_precedence_witness :
    attr httpService.Attrs "check_http" ≠ "" ∧ attr httpService.Attrs "check_ttl" ≠ "" ∧
    ∃ c, buildCheck httpService = .ok (some c) ∧ c.HTTP ≠ "" ∧ c.Script = "" ∧ c.TTL = "" :=
  ⟨by decide, by decide, (buildCheck_precedence httpService).2.1 (by decide)⟩

/-- C5, as stated, fails: `emptyScriptService` selects the script variant (its
`check_script` is non-empty, `check_http` and `check_cmd` are absent) and has
`check_interval` set to `5s`, yet the check returned has an empty Interval,
because its interpolated script is empty; and for `shortIdService`, which
selects `check_cmd`, no check is returned at all. -/
theorem buildCheck_interval_counterexample :
    attr emptyScriptService.Attrs "check_http" = "" ∧
    attr emptyScriptService.Attrs "check_cmd" = "" ∧
    attr emptyScriptService.Attrs "check_script" ≠ "" ∧
    attr emptyScriptService.Attrs "check_interval" = "5s" ∧
    buildCheck emptyScriptService = .ok (some { Interval := "" }) ∧
    attr shortIdService.Attrs "check_http" = "" ∧
    attr shortIdService.Attrs "check_cmd" ≠ "" ∧
    buildCheck shortIdService = .error .sliceBounds := by
  decide

/-- C5, amended: for every service whose selected variant is `check_http`, or
`check_cmd` with a container ID of at least 12 characters, or `check_script`
with a non-empty interpolated script, `buildCheck` returns a check whose
Interval is the `check_interval` attribute when that is present and non-empty
and `DefaultInterval` otherwise. -/
theorem buildCheck_interval (s : Service)
    (hsel : attr s.Attrs "check_http" ≠ "" ∨
      (attr s.Attrs "check_http" = "" ∧ attr s.Attrs "check_cmd" ≠ "" ∧
        12 ≤ s.Origin.ContainerID.length) ∨
      (attr s.Attrs "check_http" = "" ∧ attr s.Attrs "check_cmd" = "" ∧
        attr s.Attrs "check_script" ≠ "" ∧
        interpolateService (attr s.Attrs "check_script") s ≠ "")) :
    ∃ c, buildCheck s = .ok (some c) ∧
      c.Interval = if attr s.Attrs "check_interval" ≠ "" then attr s.Attrs "check_interval"
        else DefaultInterval := by
  rcases hsel with h1 | ⟨h1, h2, h3⟩ | ⟨h1, h2, h3, h4⟩
  · refine ⟨_, buildCheck_http s h1, ?_⟩
    rw [setInterval_polled s _ (Or.inr (http_url_ne_empty s))]
  · refine ⟨_, buildCheck_cmd s h1 h2 h3, ?_⟩
    rw [setInterval_polled s _ (Or.inl (cmd_script_ne_empty _ _ _))]
  · refine ⟨_, buildCheck_script s h1 h2 h3, ?_⟩
    rw [setInterval_polled s _ (Or.inl h4)]

/-- C5, amended, at the examples of the claim: an HTTP check with
`check_interval` set to `5s` has interval `5s`, and an HTTP check with no
`check_interval` has the default interval. -/
theorem buildCheck_interval_witness :
    (attr httpService.Attrs "check_http" ≠ "" ∧
      attr httpService.Attrs "check_interval" = "5s" ∧
      ∃ c, buildCheck httpService = .ok (some c) ∧ c.Interval = "5s") ∧
    (attr plainHttpService.Attrs "check_http" ≠ "" ∧
      attr plainHttpService.Attrs "check_interval" = "" ∧
      ∃ c, buildCheck plainHttpService = .ok (some c) ∧ c.Interval = DefaultInterval) :=
  ⟨⟨by decide, by decide, buildCheck_interval httpService (Or.inl (by decide))⟩,
    ⟨by decide, by decide, buildCheck_interval plainHttpService (Or.inl (by decide))⟩⟩

/-- C6: a service with a non-empty `check_http` gets a check whose HTTP field
is `http://` + IP + `:` + the decimal port + the `check_http` value and whose
Timeout is the `check_timeout` attribute when that is non-empty and is empty
otherwise; when `check_http` is absent or empty, a check that `buildCheck`
returns has an empty Timeout, whatever `check_timeout` holds. -/
theorem buildCheck_http_url_timeout (s : Service) :
    (attr s.Attrs "check_http" ≠ "" →
      ∃ c, buildCheck s = .ok (some c) ∧
        c.HTTP = "http://" ++ s.IP ++ ":" ++ formatInt s.Port ++ attr s.Attrs "check_http" ∧
        c.Timeout = if attr s.Attrs "check_timeout" ≠ "" then attr s.Attrs "check_timeout"
          else "") ∧
    (attr s.Attrs "check_http" = "" →
      ∀ c, buildCheck s = .ok (some c) → c.Timeout = "") := by
  constructor
  · intro h1
    refine ⟨_, buildCheck_http s h1, ?_, ?_⟩
    · rw [setInterval_HTTP]
    · rw [setInterval_Timeout]
      by_cases ht : attr s.Attrs "check_timeout" = ""
      · simp [ht]
      · simp [ht]
  · intro h1 c hc
    exact buildCheck_timeout_of_not_http s h1 c hc

/-- C6 at `httpService` (URL and timeout of an HTTP check) and at `ttlService`
(a TTL check with `check_timeout` set keeps an empty Timeout). -/
theorem buildCheck_http_url_timeout_witness :
    (attr httpService.Attrs "check_http" ≠ "" ∧
      ∃ c, buildCheck httpService = .ok (some c) ∧
        c.HTTP = "http://10.0.0.5:8080/health" ∧ c.Timeout = "2s") ∧
    (attr ttlService.Attrs "check_http" = "" ∧ attr ttlService.Attrs "check_timeout" = "2s" ∧
      buildCheck ttlService = .ok (some { TTL := "30s" }) ∧
      ({ TTL := "30s" } : AgentServiceCheck).Timeout = "") :=
  ⟨⟨by decide, (buildCheck_http_url_timeout httpService).1 (by decide)⟩,
    by decide, by decide, by decide,
    (buildCheck_http_url_timeout ttlService).2 (by decide) _ (by decide)⟩

/-- C7: with `check_http` absent or empty, `check_cmd` non-empty and a
container ID of at least 12 characters, `buildCheck` returns a check whose
Script is `check-cmd ` + the first 12 characters of the container ID + a space
+ the exposed port + a space + the `check_cmd` value. -/
theorem buildCheck_cmd_script (s : Service) (h1 : attr s.Attrs "check_http" = "")
    (h2 : attr s.Attrs "check_cmd" ≠ "") (h3 : 12 ≤ s.Origin.ContainerID.length) :
    ∃ c, buildCheck s = .ok (some c) ∧
      c.Script = "check-cmd " ++ String.mk (s.Origin.ContainerID.data.take 12) ++ " "
        ++ s.Origin.ExposedPort ++ " " ++ attr s.Attrs "check_cmd" := by
  refine ⟨_, buildCheck_cmd s h1 h2 h3, ?_⟩
  rw [setInterval_Script]

/-- C7 at the example of the claim: `check_cmd` = `ping`, container ID
`abcdef0123456789`, exposed port `80`. -/
theorem buildCheck_cmd_script_witness :
    attr cmdService.Attrs "check_http" = "" ∧ attr cmdService.Attrs "check_cmd" = "ping" ∧
    cmdService.Origin.ContainerID = "abcdef0123456789" ∧ cmdService.Origin.ExposedPort = "80" ∧
    ∃ c, buildCheck cmdService = .ok (some c) ∧ c.Script = "check-cmd abcdef012345 80 ping" :=
  ⟨by decide, by decide, by decide, by decide,
    buildCheck_cmd_script cmdService (by decide) (by decide) (by decide)⟩

/-- C9: when `check_http`, `check_cmd` and `check_script` are absent or empty
and `check_ttl` is not, `buildCheck` returns a check whose TTL is the
`check_ttl` value and whose Interval is empty, whatever `check_interval`
holds. -/
theorem buildCheck_ttl_no_interval (s : Service) (h1 : attr s.Attrs "check_http" = "")
    (h2 : attr s.Attrs "check_cmd" = "") (h3 : attr s.Attrs "check_script" = "")
    (h4 : attr s.Attrs "check_ttl" ≠ "") :
    ∃ c, buildCheck s = .ok (some c) ∧ c.TTL = attr s.Attrs "check_ttl" ∧ c.Interval = "" :=
  ⟨_, buildCheck_ttl s h1 h2 h3 h4, rfl, rfl⟩

/-- C9 at `ttlService`, which also carries `check_interval` = `5s`. -/
theorem buildCheck_ttl_no_interval_witness :
    attr ttlService.Attrs "check_interval" = "5s" ∧
    ∃ c, buildCheck ttlService = .ok (some c) ∧ c.TTL = "30s" ∧ c.Interval = "" :=
  ⟨by decide, buildCheck_ttl_no_interval ttlService (by decide) (by decide) (by decide)
    (by decide)⟩

/-- C8, as stated, fails: the host IP and host port of `unpublishedService`
and of `namedHostService` contain no `$`, yet a placeholder is left in the
result, put together from the text around a replaced occurrence. -/
theorem interpolateService_counterexample :
    '$' ∉ unpublishedService.Origin.HostIP.data ∧
    '$' ∉ unpublishedService.Origin.HostPort.data ∧
    interpolateService "$SERVICE_$SERVICE_PORTPORT" unpublishedService = "$SERVICE_PORT" ∧
    Contains (interpolateService "$SERVICE_$SERVICE_PORTPORT" unpublishedService)
      "$SERVICE_PORT" ∧
    '$' ∉ namedHostService.Origin.HostIP.data ∧
    '$' ∉ namedHostService.Origin.HostPort.data ∧
    interpolateService "$S$SERVICE_IPRVICE_IP" namedHostService = "$SERVICE_IP" ∧
    Contains (interpolateService "$S$SERVICE_IPRVICE_IP" namedHostService) "$SERVICE_IP" := by
  decide

/-- C8, amended: for every script text and every service whose origin host IP
and host port are non-empty, contain no `$` and start with a character that
occurs in neither placeholder name, the string returned by
`interpolateService` is the script with its placeholders replaced, each
`$SERVICE_IP` by the host IP and each `$SERVICE_PORT` by the host port, the
rest of the text kept as it is; and it contains no occurrence of
`$SERVICE_IP` and no occurrence of `$SERVICE_PORT`, so every occurrence of
the script has been replaced. -/
theorem interpolateService_replaces_all (script : String) (service : Service)
    (hip : Substitutable service.Origin.HostIP)
    (hport : Substitutable service.Origin.HostPort) :
    (∃ pieces : List Piece, script = render Piece.source pieces ∧
      interpolateService script service = render (Piece.value service) pieces) ∧
    ¬ Contains (interpolateService script service) "$SERVICE_IP" ∧
    ¬ Contains (interpolateService script service) "$SERVICE_PORT" := by
  obtain ⟨hd1, h1, t1, hnew1, hq1⟩ := hip
  obtain ⟨hd2, h2, t2, hnew2, hq2⟩ := hport
  have hmemIP : ∀ c : Char, c ∈ "SERVICE_IP".data → c ∈ "SERVICE_IPORT".data := by decide
  have hmemPORT : ∀ c : Char, c ∈ "SERVICE_PORT".data → c ∈ "SERVICE_IPORT".data := by decide
  refine ⟨?_, ?_, ?_⟩
  · obtain ⟨pieces, hsrc, hval⟩ :=
      interpolate_pieces service h1 t1 hd1 hnew1 (fun hm => hq1 (hmemPORT _ hm))
        script.data.length script.data (Nat.le_refl _)
    exact ⟨pieces, String.ext hsrc, String.ext hval⟩
  · intro hocc
    have hocc1 : ('$' :: "SERVICE_IP".data) <:+:
        replaceFrom "$SERVICE_IP".data service.Origin.HostIP.data 0 script.data :=
      infix_of_infix_replaceFrom "$SERVICE_PORT".data service.Origin.HostPort.data
        "SERVICE_IP".data '$' h2 t2 hd2 hnew2 (fun hm => hq2 (hmemIP _ hm)) _ hocc
    exact not_infix_replaceFrom_self service.Origin.HostIP.data "SERVICE_IP".data '$' h1 t1
      hd1 hnew1 (fun hm => hq1 (hmemIP _ hm)) script.data hocc1
  · intro hocc
    exact not_infix_replaceFrom_self service.Origin.HostPort.data "SERVICE_PORT".data '$' h2 t2
      hd2 hnew2 (fun hm => hq2 (hmemPORT _ hm)) _ hocc

/-- C8, amended, at the example of the claim: host IP `10.0.0.5`, host port
`8080`; the script `curl $SERVICE_IP:$SERVICE_PORT/health`, which reads as
text, the IP placeholder, text, the port placeholder and text, becomes
exactly `curl 10.0.0.5:8080/health`. -/
theorem interpolateService_replaces_all_witness :
    Substitutable curlService.Origin.HostIP ∧ Substitutable curlService.Origin.HostPort ∧
    "curl $SERVICE_IP:$SERVICE_PORT/health"
      = render Piece.source
        [.text "curl ", .hostIP, .text ":", .hostPort, .text "/health"] ∧
    render (Piece.value curlService)
        [.text "curl ", .hostIP, .text ":", .hostPort, .text "/health"]
      = "curl 10.0.0.5:8080/health" ∧
    interpolateService "curl $SERVICE_IP:$SERVICE_PORT/health" curlService
      = "curl 10.0.0.5:8080/health" ∧
    buildCheck curlService
      = .ok (some { Script := "curl 10.0.0.5:8080/health", Interval := "10s" }) ∧
    (∃ pieces : List Piece,
      "curl $SERVICE_IP:$SERVICE_PORT/health" = render Piece.source pieces ∧
      interpolateService "curl $SERVICE_IP:$SERVICE_PORT/health" curlService
        = render (Piece.value curlService) pieces) ∧
    ¬ Contains (interpolateService "curl $SERVICE_IP:$SERVICE_PORT/health" curlService)
      "$SERVICE_IP" ∧
    ¬ Contains (interpolateService "curl $SERVICE_IP:$SERVICE_PORT/health" curlService)
      "$SERVICE_PORT" :=
  ⟨⟨by decide, _, _, rfl, by decide⟩, ⟨by decide, _, _, rfl, by decide⟩, by decide, by decide,
    by decide, by decide,
    interpolateService_replaces_all "curl $SERVICE_IP:$SERVICE_PORT/health" curlService
      ⟨by decide, _, _, rfl, by decide⟩ ⟨by decide, _, _, rfl, by decide⟩⟩

/-! ## Claims on the adapter -/

/-- C2, as stated, fails: for the adapter mounted at `/reg` and
`shortIdService`, `Register` submits no registry entry (it issues no backend
call at all): `buildCheck` panics before the entry is built. -/
theorem Register_entry_counterexample :
    (Register (scriptedAdapter "/reg" []) shortIdService (World.start [])).1
      = .error .sliceBounds ∧
    (Register (scriptedAdapter "/reg" []) shortIdService (World.start [])).2.calls = [] ∧
    submitted (Register (scriptedAdapter "/reg" []) shortIdService (World.start [])).2.calls
      = [] := by
  decide

/-- C2, amended: for every adapter whose configured path is non-empty, `pfx`
being that path with its first character stripped, and every service on which
`buildCheck` does not fail, `Register` submits exactly one registry entry; its
ID is `pfx` + the service ID, its Name, Port, Tags and Address are the
service Name, Port, Tags and IP, and its Check is the result of `buildCheck`. -/
theorem Register_entry {σ : Type} (r : ConsulMetaAdapter σ) (service : Service)
    (w : World σ) (pfx : String) (check : Option AgentServiceCheck)
    (hp : sliceFrom r.path 1 = .ok pfx) (hc : buildCheck service = .ok check) :
    submitted (Register r service w).2.calls =
      submitted w.calls ++
        [{ ID := pfx ++ service.ID, Name := service.Name, Port := service.Port,
           Tags := service.Tags, Address := service.IP, Check := check }] := by
  rw [Register_calls r service w pfx check hp hc]
  simp [submitted, List.filterMap_append]

/-- C2, amended, at the adapter mounted at `/reg` and `cmdService`. -/
theorem Register_entry_witness :
    sliceFrom (scriptedAdapter "/reg" []).path 1 = .ok "reg" ∧
    buildCheck cmdService
      = .ok (some { Script := "check-cmd abcdef012345 80 ping", Interval := "10s" }) ∧
    submitted (Register (scriptedAdapter "/reg" []) cmdService (World.start [])).2.calls =
      [{ ID := "regw1", Name := "web", Port := 8080, Tags := [], Address := "10.0.0.5",
         Check := some { Script := "check-cmd abcdef012345 80 ping", Interval := "10s" } }] :=
  ⟨by decide, by decide,
    Register_entry (scriptedAdapter "/reg" []) cmdService (World.start []) "reg" _
      (by decide) (by decide)⟩

/-- C3, as stated, fails: the adapter mounted at `/reg` has the prefix `reg`;
for `webService` (name `web`, ID `w1`) `Register` writes the attribute `owner`
at `reg/web/w1/owner`, not at `regweb/w1/owner`, and `Deregister` deletes the
subtree `reg/web/w1`, not `regweb/w1`: the code puts a separator between the
prefix and the service name. -/
theorem kv_paths_counterexample :
    sliceFrom (scriptedAdapter "/reg" []).path 1 = .ok "reg" ∧
    written (Register (scriptedAdapter "/reg" []) webService (World.start [])).2.calls
      = [("reg/web/w1/owner", "ops"), ("reg/web/w1/tier", "front")] ∧
    ("reg" ++ "web" ++ "/" ++ "w1" ++ "/" ++ "owner", "ops") ∉
      written (Register (scriptedAdapter "/reg" []) webService (World.start [])).2.calls ∧
    deletedTrees (Deregister (scriptedAdapter "/reg" []) webService (World.start [])).2.calls
      = ["reg/web/w1"] ∧
    ("reg" ++ "web" ++ "/" ++ "w1") ∉
      deletedTrees (Deregister (scriptedAdapter "/reg" []) webService (World.start [])).2.calls ∧
    written (Register (scriptedAdapter "/reg" []) shortIdService (World.start [])).2.calls
      = [] := by
  decide

/-- C3, amended: for every adapter whose configured path is non-empty, `pfx`
being that path with its first character stripped, `Register` of a service on
which `buildCheck` does not fail writes, for each attribute (key, value) of the
service, the value at `pfx` + `/` + name + `/` + ID + `/` + key, and nothing
else; `Deregister` deletes exactly the subtree `pfx` + `/` + name + `/` + ID. -/
theorem kv_paths {σ : Type} (r : ConsulMetaAdapter σ) (service : Service)
    (w : World σ) (pfx : String) (hp : sliceFrom r.path 1 = .ok pfx) :
    (∀ check, buildCheck service = .ok check →
      written (Register r service w).2.calls =
        written w.calls ++ service.Attrs.map (fun kv =>
          (pfx ++ "/" ++ service.Name ++ "/" ++ service.ID ++ "/" ++ kv.1, kv.2))) ∧
    deletedTrees (Deregister r service w).2.calls =
      deletedTrees w.calls ++ [pfx ++ "/" ++ service.Name ++ "/" ++ service.ID] := by
  constructor
  · intro check hc
    rw [Register_calls r service w pfx check hp hc]
    simp only [written, List.filterMap_append, List.filterMap_map, Function.comp_def,
      List.filterMap_cons, List.filterMap_nil, List.append_nil]
    congr 1
    induction service.Attrs with
    | nil => rfl
    | cons kv rest ih => simp [List.filterMap_cons, ih]
  · rw [Deregister_calls r service w pfx hp]
    simp [deletedTrees, List.filterMap_append]

/-- C3, amended, at the adapter mounted at `/reg` and `webService`. -/
theorem kv_paths_witness :
    sliceFrom (scriptedAdapter "/reg" []).path 1 = .ok "reg" ∧
    buildCheck webService = .ok none ∧
    written (Register (scriptedAdapter "/reg" []) webService (World.start [])).2.calls
      = [("reg/web/w1/owner", "ops"), ("reg/web/w1/tier", "front")] ∧
    deletedTrees (Deregister (scriptedAdapter "/reg" []) webService (World.start [])).2.calls
      = ["reg/web/w1"] :=
  ⟨by decide, by decide,
    (kv_paths (scriptedAdapter "/reg" []) webService (World.start []) "reg" (by decide)).1
      none (by decide),
    (kv_paths (scriptedAdapter "/reg" []) webService (World.start []) "reg" (by decide)).2⟩

/-- C4: when the listing succeeds with the IDs `ids`, `Cleanup` issues its
deregister calls for exactly the listed IDs that begin with the namespace
prefix and whose ID with the prefix stripped is absent from the valid-services
mapping or mapped to nil, each with the full ID and once per listed entry, in
listing order; an ID that lacks the prefix is never among them. -/
theorem Cleanup_deregisters_orphans {σ : Type} (r : ConsulMetaAdapter σ)
    (validServices : List (String × Option Service)) (w : World σ) (pfx : String)
    (ids : List String) (hp : sliceFrom r.path 1 = .ok pfx)
    (hl : (r.client.Services w.backend).1 = .ok ids) :
    deregistered (Cleanup r validServices w).2.calls =
      deregistered w.calls ++ ids.filter (fun id => decide (IsOrphan pfx validServices id)) ∧
    ∀ id, HasPrefix id pfx = false →
      id ∉ ids.filter (fun id => decide (IsOrphan pfx validServices id)) := by
  constructor
  · unfold Cleanup
    simp only [World.invoke, hl]
    have h := cleanupLoop_of_ok r validServices pfx hp ids
      { backend := (r.client.Services w.backend).2, calls := w.calls ++ [Call.Services] }
    revert h
    cases cleanupLoop r validServices ids
      { backend := (r.client.Services w.backend).2, calls := w.calls ++ [Call.Services] } with
    | mk res w2 =>
      rintro ⟨h1, h2⟩
      simp only at h1 h2
      subst h1
      simp [h2, deregistered, List.filterMap_append, List.filterMap_map, Function.comp_def]
  · intro id hid hmem
    have ho := of_decide_eq_true (List.mem_filter.mp hmem).2
    rw [(isOrphan_iff pfx validServices id).mp ho |>.1] at hid
    cases hid

/-- C4 at the adapter mounted at `/reg`: of the listed IDs, `regw1` is valid,
`other` lacks the prefix (and is not in the valid set), `regw2` is absent from
the valid set and `regw3` is mapped to nil. -/
theorem Cleanup_deregisters_orphans_witness :
    sliceFrom (scriptedAdapter "/reg" ["regw1", "other", "regw2", "regw3"]).path 1
      = .ok "reg" ∧
    deregistered (Cleanup (scriptedAdapter "/reg" ["regw1", "other", "regw2", "regw3"])
      [("w1", some webService), ("w3", none)] (World.start [])).2.calls
      = ["regw2", "regw3"] :=
  ⟨by decide,
    (Cleanup_deregisters_orphans (scriptedAdapter "/reg" ["regw1", "other", "regw2", "regw3"])
      [("w1", some webService), ("w3", none)] (World.start []) "reg"
      ["regw1", "other", "regw2", "regw3"] (by decide) (by decide)).1⟩

/-- C10, as stated, fails: for the adapter mounted at `/reg`, a backend on
which every call succeeds and `shortIdService`, which has the attribute
`owner`, `Register` attempts no attribute write, submits no registry entry and
returns no result: `buildCheck` panics first. -/
theorem Register_result_counterexample :
    attr shortIdService.Attrs "owner" = "ops" ∧
    (Register (scriptedAdapter "/reg" []) shortIdService (World.start [])).1
      = .error .sliceBounds ∧
    written (Register (scriptedAdapter "/reg" []) shortIdService (World.start [])).2.calls
      = [] ∧
    submitted (Register (scriptedAdapter "/reg" []) shortIdService (World.start [])).2.calls
      = [] := by
  decide

/-- C10, amended: for every adapter whose configured path is non-empty, every
backend (whatever the outcomes of its writes) and every service on which
`buildCheck` does not fail, `Register` issues one write per attribute, in
order, then submits the registry entry, and returns exactly the result that
the backend gives to that submission. -/
theorem Register_result {σ : Type} (r : ConsulMetaAdapter σ) (service : Service)
    (w : World σ) (pfx : String) (check : Option AgentServiceCheck)
    (hp : sliceFrom r.path 1 = .ok pfx) (hc : buildCheck service = .ok check) :
    (Register r service w).2.calls =
      w.calls
        ++ service.Attrs.map (fun kv =>
            Call.KVPut (pfx ++ "/" ++ service.Name ++ "/" ++ service.ID ++ "/" ++ kv.1) kv.2)
        ++ [Call.ServiceRegister
            { ID := pfx ++ service.ID, Name := service.Name, Port := service.Port,
              Tags := service.Tags, Address := service.IP, Check := check }] ∧
    (Register r service w).1 =
      .ok (r.client.ServiceRegister
        { ID := pfx ++ service.ID, Name := service.Name, Port := service.Port,
          Tags := service.Tags, Address := service.IP, Check := check }
        (putAttrs r (pfx ++ "/" ++ service.Name ++ "/" ++ service.ID) service.Attrs
          w).backend).1 := by
  refine ⟨Register_calls r service w pfx check hp hc, ?_⟩
  rw [Register_of_ok r service w pfx check hp hc]
  rfl

/-- C10, amended, on a backend whose first write fails and whose other calls
succeed: both attribute writes are attempted, the entry is submitted and
`Register` returns success. -/
theorem Register_result_witness :
    ((scriptedClient []).KVPut "reg/web/w1/owner" "ops" [some "write failed"]).1
      = some "write failed" ∧
    (Register (scriptedAdapter "/reg" []) webService (World.start [some "write failed"])).2.calls
      = [Call.KVPut "reg/web/w1/owner" "ops", Call.KVPut "reg/web/w1/tier" "front",
         Call.ServiceRegister
          { ID := "regw1", Name := "web", Port := 8080, Tags := ["blue"],
            Address := "10.0.0.5", Check := none }] ∧
    (Register (scriptedAdapter "/reg" []) webService (World.start [some "write failed"])).1
      = .ok none :=
  ⟨by decide,
    Register_result (scriptedAdapter "/reg" []) webService (World.start [some "write failed"])
      "reg" none (by decide) (by decide)⟩

/-! ## Further lemmas on the adapter -/

theorem sliceFrom_one_of_ne_empty (path : String) (h : path ≠ "") :
    sliceFrom path 1 = .ok (String.mk (path.data.drop 1)) := by
  have hlen : 1 ≤ path.length := by
    cases hd : path.data with
    | nil => exact absurd (String.ext hd) h
    | cons c cs =>
      show 1 ≤ path.data.length
      rw [hd]
      simp
  simp [sliceFrom, hlen]

theorem sliceFrom_one_of_empty (path : String) (h : path = "") :
    sliceFrom path 1 = .error .sliceBounds := by
  subst h
  rfl

theorem cleanupLoop_of_panic {σ : Type} (r : ConsulMetaAdapter σ)
    (validServices : List (String × Option Service)) (p : Panic)
    (hp : sliceFrom r.path 1 = .error p) (ids : List String) (w : World σ) :
    (cleanupLoop r validServices ids w).2 = w := by
  cases ids with
  | nil => rfl
  | cons id rest =>
    unfold cleanupLoop
    simp [hp]

theorem Cleanup_of_listing_error {σ : Type} (r : ConsulMetaAdapter σ)
    (validServices : List (String × Option Service)) (w : World σ) (err : Error)
    (hl : (r.client.Services w.backend).1 = .error err) :
    Cleanup r validServices w =
      (.ok (some err),
        { backend := (r.client.Services w.backend).2, calls := w.calls ++ [Call.Services] }) := by
  unfold Cleanup
  simp only [World.invoke, hl]

theorem Cleanup_of_ok {σ : Type} (r : ConsulMetaAdapter σ)
    (validServices : List (String × Option Service)) (w : World σ) (pfx : String)
    (ids : List String) (hp : sliceFrom r.path 1 = .ok pfx)
    (hl : (r.client.Services w.backend).1 = .ok ids) :
    (Cleanup r validServices w).1 = .ok none ∧
    (Cleanup r validServices w).2.calls =
      w.calls ++ [Call.Services]
        ++ (ids.filter fun id => decide (IsOrphan pfx validServices id)).map
          Call.ServiceDeregister := by
  unfold Cleanup
  simp only [World.invoke, hl]
  have h := cleanupLoop_of_ok r validServices pfx hp ids
    { backend := (r.client.Services w.backend).2, calls := w.calls ++ [Call.Services] }
  revert h
  cases cleanupLoop r validServices ids
    { backend := (r.client.Services w.backend).2, calls := w.calls ++ [Call.Services] } with
  | mk res w2 =>
    rintro ⟨h1, h2⟩
    simp only at h1 h2
    subst h1
    exact ⟨rfl, h2⟩

theorem Cleanup_of_listing_ok {σ : Type} (r : ConsulMetaAdapter σ)
    (validServices : List (String × Option Service)) (w : World σ) (ids : List String)
    (hl : (r.client.Services w.backend).1 = .ok ids) (err : Error) :
    (Cleanup r validServices w).1 ≠ .ok (some err) := by
  unfold Cleanup
  simp only [World.invoke, hl]
  cases cleanupLoop r validServices ids
    { backend := (r.client.Services w.backend).2, calls := w.calls ++ [Call.Services] } with
  | mk res w2 =>
    cases res with
    | error p => simp
    | ok u => simp

theorem hasPrefix_append (pfx rest : String) : HasPrefix (pfx ++ rest) pfx = true := by
  simp [HasPrefix, String.data_append]

theorem trimPrefix_append (pfx rest : String) : TrimPrefix (pfx ++ rest) pfx = rest := by
  unfold TrimPrefix
  rw [if_pos (hasPrefix_append pfx rest)]
  apply String.ext
  show List.drop pfx.length (pfx ++ rest).data = rest.data
  rw [String.data_append]
  exact List.drop_left' rfl

/-- Under a non-empty path, whatever the listing returns, the calls of one
`Cleanup` run are the `Services` call and then deregister calls of orphans
only. -/
theorem Cleanup_issued {σ : Type} (r : ConsulMetaAdapter σ)
    (validServices : List (String × Option Service)) (w : World σ) (pfx : String)
    (hp : sliceFrom r.path 1 = .ok pfx) :
    ∃ orphans : List String,
      (Cleanup r validServices w).2.calls =
        w.calls ++ Call.Services :: orphans.map Call.ServiceDeregister ∧
      ∀ id ∈ orphans, IsOrphan pfx validServices id := by
  cases hl : (r.client.Services w.backend).1 with
  | error err =>
    refine ⟨[], ?_, ?_⟩
    · rw [Cleanup_of_listing_error r validServices w err hl]
      rfl
    · intro id hid
      cases hid
  | ok ids =>
    refine ⟨ids.filter fun id => decide (IsOrphan pfx validServices id), ?_, ?_⟩
    · rw [(Cleanup_of_ok r validServices w pfx ids hp hl).2]
      simp
    · intro id hid
      exact of_decide_eq_true (List.mem_filter.mp hid).2

theorem Cleanup_world_of_listing_ok {σ : Type} (r : ConsulMetaAdapter σ)
    (validServices : List (String × Option Service)) (w : World σ) (ids : List String)
    (hl : (r.client.Services w.backend).1 = .ok ids) :
    (Cleanup r validServices w).2 =
      (cleanupLoop r validServices ids
        { backend := (r.client.Services w.backend).2,
          calls := w.calls ++ [Call.Services] }).2 := by
  unfold Cleanup
  simp only [World.invoke, hl]
  cases cleanupLoop r validServices ids
    { backend := (r.client.Services w.backend).2, calls := w.calls ++ [Call.Services] } with
  | mk res w2 =>
    cases res with
    | error p => rfl
    | ok u => rfl

theorem Cleanup_calls_of_panic {σ : Type} (r : ConsulMetaAdapter σ)
    (validServices : List (String × Option Service)) (w : World σ) (p : Panic)
    (hp : sliceFrom r.path 1 = .error p) :
    (Cleanup r validServices w).2.calls = w.calls ++ [Call.Services] := by
  cases hl : (r.client.Services w.backend).1 with
  | error err => rw [Cleanup_of_listing_error r validServices w err hl]
  | ok ids =>
    rw [Cleanup_world_of_listing_ok r validServices w ids hl,
      cleanupLoop_of_panic r validServices p hp]

/-! ## Claims on error handling -/

/-- C11: `Cleanup` returns an error exactly when the listing fails; it is then
the listing error, and `Services` is the only backend call issued.  When the
listing succeeds with the IDs `ids`, whatever the outcomes of the deregister
calls, `Cleanup` returns success and issues the deregister call of every
orphan among `ids`. -/
theorem Cleanup_result {σ : Type} (r : ConsulMetaAdapter σ)
    (validServices : List (String × Option Service)) (w : World σ) :
    (∀ err, (Cleanup r validServices w).1 = .ok (some err) ↔
      (r.client.Services w.backend).1 = .error err) ∧
    (∀ err, (r.client.Services w.backend).1 = .error err →
      (Cleanup r validServices w).2.calls = w.calls ++ [Call.Services]) ∧
    (∀ pfx ids, sliceFrom r.path 1 = .ok pfx → (r.client.Services w.backend).1 = .ok ids →
      (Cleanup r validServices w).1 = .ok none ∧
      (Cleanup r validServices w).2.calls =
        w.calls ++ [Call.Services]
          ++ (ids.filter fun id => decide (IsOrphan pfx validServices id)).map
            Call.ServiceDeregister) := by
  refine ⟨?_, ?_, ?_⟩
  · intro err
    constructor
    · intro hres
      cases hl : (r.client.Services w.backend).1 with
      | error e =>
        rw [Cleanup_of_listing_error r validServices w e hl] at hres
        simp only [Except.ok.injEq, Option.some.injEq] at hres
        rw [hres]
      | ok ids => exact absurd hres (Cleanup_of_listing_ok r validServices w ids hl err)
    · intro hl
      rw [Cleanup_of_listing_error r validServices w err hl]
  · intro err hl
    rw [Cleanup_of_listing_error r validServices w err hl]
  · intro pfx ids hp hl
    exact Cleanup_of_ok r validServices w pfx ids hp hl

/-- C11 on scripted backends mounted at `/reg`: when the listing fails with
`down`, `Cleanup` returns `down` after the `Services` call alone; when the
listing succeeds and the first deregister call fails, `Cleanup` returns
success and has issued the deregister calls of both orphans. -/
theorem Cleanup_result_witness :
    ((Cleanup (scriptedAdapter "/reg" ["regw2", "regw3"]) [] (World.start [some "down"])).1
        = .ok (some "down") ∧
      (Cleanup (scriptedAdapter "/reg" ["regw2", "regw3"]) [] (World.start [some "down"])).2.calls
        = [Call.Services]) ∧
    ((scriptedClient ["regw2", "regw3"]).ServiceDeregister "regw2" [some "refused"]).1
      = some "refused" ∧
    (Cleanup (scriptedAdapter "/reg" ["regw2", "regw3"]) []
        (World.start [none, some "refused"])).1 = .ok none ∧
    (Cleanup (scriptedAdapter "/reg" ["regw2", "regw3"]) []
        (World.start [none, some "refused"])).2.calls
      = [Call.Services, Call.ServiceDeregister "regw2", Call.ServiceDeregister "regw3"] :=
  ⟨⟨((Cleanup_result (scriptedAdapter "/reg" ["regw2", "regw3"]) []
        (World.start [some "down"])).1 "down").mpr (by decide),
      (Cleanup_result (scriptedAdapter "/reg" ["regw2", "regw3"]) []
        (World.start [some "down"])).2.1 "down" (by decide)⟩,
    by decide,
    (Cleanup_result (scriptedAdapter "/reg" ["regw2", "regw3"]) []
      (World.start [none, some "refused"])).2.2 "reg" ["regw2", "regw3"] (by decide)
      (by decide)⟩

/-- C12: `Deregister` issues the recursive delete of the attribute subtree and
then, whatever the outcome of that delete, the deregister call with the ID
`pfx` + the service ID, and returns exactly the result that the backend gives
to the deregister call. -/
theorem Deregister_result {σ : Type} (r : ConsulMetaAdapter σ) (service : Service)
    (w : World σ) (pfx : String) (hp : sliceFrom r.path 1 = .ok pfx) :
    (Deregister r service w).2.calls =
      w.calls ++ [Call.KVDeleteTree (pfx ++ "/" ++ service.Name ++ "/" ++ service.ID),
        Call.ServiceDeregister (pfx ++ service.ID)] ∧
    (Deregister r service w).1 =
      .ok (r.client.ServiceDeregister (pfx ++ service.ID)
        (r.client.KVDeleteTree (pfx ++ "/" ++ service.Name ++ "/" ++ service.ID)
          w.backend).2).1 := by
  refine ⟨Deregister_calls r service w pfx hp, ?_⟩
  rw [Deregister_of_ok r service w pfx hp]
  rfl

/-- C12 on scripted backends mounted at `/reg`: when the subtree delete fails
and the deregister call succeeds `Deregister` returns success, and when the
delete succeeds and the deregister call fails it returns that failure. -/
theorem Deregister_result_witness :
    sliceFrom (scriptedAdapter "/reg" []).path 1 = .ok "reg" ∧
    ((Deregister (scriptedAdapter "/reg" []) webService
        (World.start [some "delete failed"])).2.calls
        = [Call.KVDeleteTree "reg/web/w1", Call.ServiceDeregister "regw1"] ∧
      (Deregister (scriptedAdapter "/reg" []) webService
        (World.start [some "delete failed"])).1 = .ok none) ∧
    ((Deregister (scriptedAdapter "/reg" []) webService
        (World.start [none, some "refused"])).2.calls
        = [Call.KVDeleteTree "reg/web/w1", Call.ServiceDeregister "regw1"] ∧
      (Deregister (scriptedAdapter "/reg" []) webService
        (World.start [none, some "refused"])).1 = .ok (some "refused")) :=
  ⟨by decide,
    Deregister_result (scriptedAdapter "/reg" []) webService
      (World.start [some "delete failed"]) "reg" (by decide),
    Deregister_result (scriptedAdapter "/reg" []) webService
      (World.start [none, some "refused"]) "reg" (by decide)⟩

/-! ## Claims on run-time failures -/

/-- C17: `buildCheck` fails at run time exactly when `check_http` is absent or
empty, `check_cmd` is non-empty and the container ID is shorter than 12; the
failure is the slice-bounds panic, and every other service gets a result. -/
theorem buildCheck_panics_iff (s : Service) :
    ((∃ p, buildCheck s = .error p) ↔
      attr s.Attrs "check_http" = "" ∧ attr s.Attrs "check_cmd" ≠ "" ∧
        s.Origin.ContainerID.length < 12) ∧
    (attr s.Attrs "check_http" = "" ∧ attr s.Attrs "check_cmd" ≠ "" ∧
        s.Origin.ContainerID.length < 12 → buildCheck s = .error .sliceBounds) ∧
    (¬ (attr s.Attrs "check_http" = "" ∧ attr s.Attrs "check_cmd" ≠ "" ∧
        s.Origin.ContainerID.length < 12) → ∃ res, buildCheck s = .ok res) := by
  have hok : ¬ (attr s.Attrs "check_http" = "" ∧ attr s.Attrs "check_cmd" ≠ "" ∧
      s.Origin.ContainerID.length < 12) → ∃ res, buildCheck s = .ok res := by
    intro hn
    by_cases h1 : attr s.Attrs "check_http" = ""
    · by_cases h2 : attr s.Attrs "check_cmd" = ""
      · by_cases h3 : attr s.Attrs "check_script" = ""
        · by_cases h4 : attr s.Attrs "check_ttl" = ""
          · exact ⟨_, buildCheck_none s h1 h2 h3 h4⟩
          · exact ⟨_, buildCheck_ttl s h1 h2 h3 h4⟩
        · exact ⟨_, buildCheck_script s h1 h2 h3⟩
      · by_cases h3 : 12 ≤ s.Origin.ContainerID.length
        · exact ⟨_, buildCheck_cmd s h1 h2 h3⟩
        · exact absurd ⟨h1, h2, Nat.not_le.mp h3⟩ hn
    · exact ⟨_, buildCheck_http s h1⟩
  refine ⟨⟨?_, ?_⟩, ?_, hok⟩
  · rintro ⟨p, hp⟩
    by_contra hn
    obtain ⟨res, hres⟩ := hok hn
    rw [hres] at hp
    cases hp
  · rintro ⟨h1, h2, h3⟩
    exact ⟨_, buildCheck_cmd_panic s h1 h2 h3⟩
  · rintro ⟨h1, h2, h3⟩
    exact buildCheck_cmd_panic s h1 h2 h3

/-- C17 at `shortIdService` (container ID `abc`, `check_cmd` set), which
fails, and at `cmdService` (container ID of 16 characters), which does not. -/
theorem buildCheck_panics_iff_witness :
    buildCheck shortIdService = .error .sliceBounds ∧
    ∃ res, buildCheck cmdService = .ok res :=
  ⟨(buildCheck_panics_iff shortIdService).2.1 (by decide),
    (buildCheck_panics_iff cmdService).2.2 (by decide)⟩

/-- C19: computing the prefix `r.path[1:]` fails exactly when the configured
path is empty.  With a non-empty path `Register` fails only where `buildCheck`
does, and `Deregister` and `Cleanup` do not fail.  An adapter built by `New`
from a URI with an empty path makes `Register` and `Deregister` fail with the
slice-bounds panic before any backend call. -/
theorem prefix_computation_safe {σ : Type} (r : ConsulMetaAdapter σ) (service : Service)
    (validServices : List (String × Option Service)) (w : World σ) :
    (sliceFrom r.path 1 = .error .sliceBounds ↔ r.path = "") ∧
    (r.path ≠ "" →
      (∃ pfx, sliceFrom r.path 1 = .ok pfx) ∧
      (∀ check, buildCheck service = .ok check → ∃ res, (Register r service w).1 = .ok res) ∧
      (∃ res, (Deregister r service w).1 = .ok res) ∧
      (∃ res, (Cleanup r validServices w).1 = .ok res)) ∧
    (∀ (defaultAddress : String) (newClient : String → Except Error (Client σ)) (uri : URL),
      uri.Path = "" → New defaultAddress newClient uri = some r →
      Register r service w = (.error .sliceBounds, w) ∧
      Deregister r service w = (.error .sliceBounds, w)) := by
  refine ⟨⟨?_, sliceFrom_one_of_empty r.path⟩, ?_, ?_⟩
  · intro herr
    by_contra hne
    rw [sliceFrom_one_of_ne_empty r.path hne] at herr
    cases herr
  · intro hne
    have hp := sliceFrom_one_of_ne_empty r.path hne
    refine ⟨⟨_, hp⟩, ?_, ?_, ?_⟩
    · intro check hc
      rw [Register_of_ok r service w _ check hp hc]
      exact ⟨_, rfl⟩
    · rw [Deregister_of_ok r service w _ hp]
      exact ⟨_, rfl⟩
    · cases hl : (r.client.Services w.backend).1 with
      | error err =>
        rw [Cleanup_of_listing_error r validServices w err hl]
        exact ⟨_, rfl⟩
      | ok ids => exact ⟨_, (Cleanup_of_ok r validServices w _ ids hp hl).1⟩
  · intro defaultAddress newClient uri hpath hnew
    have hr : r.path = "" := by
      cases hc : newClient (if uri.Host ≠ "" then uri.Host else defaultAddress) with
      | error e =>
        simp only [New, hc] at hnew
        cases hnew
      | ok client =>
        simp only [New, hc, Option.some.injEq] at hnew
        rw [← hnew]
        exact hpath
    have hs := sliceFrom_one_of_empty r.path hr
    constructor
    · simp [Register, hs]
    · simp [Deregister, hs]

/-- C19 at the adapter mounted at `/reg` and at the adapter that `New` builds
from a URI without a path. -/
theorem prefix_computation_safe_witness :
    ((scriptedAdapter "/reg" []).path ≠ "" ∧
      ∃ res, (Deregister (scriptedAdapter "/reg" []) webService (World.start [])).1 = .ok res) ∧
    (New "127.0.0.1:8500" (fun _ => .ok (scriptedClient []))
        { Scheme := "consulmeta", Host := "localhost:8500", Path := "" }
        = some (scriptedAdapter "" []) ∧
      Register (scriptedAdapter "" []) webService (World.start [])
        = (.error .sliceBounds, World.start []) ∧
      Deregister (scriptedAdapter "" []) webService (World.start [])
        = (.error .sliceBounds, World.start [])) :=
  ⟨⟨by decide,
      ((prefix_computation_safe (scriptedAdapter "/reg" []) webService []
        (World.start [])).2.1 (by decide)).2.2.1⟩,
    rfl,
    (prefix_computation_safe (scriptedAdapter "" []) webService [] (World.start [])).2.2
      "127.0.0.1:8500" (fun _ => .ok (scriptedClient []))
      { Scheme := "consulmeta", Host := "localhost:8500", Path := "" } rfl rfl⟩

/-- With `pfx` the configured path without its first character, every call of
one run of `Register`, `Deregister` or `Cleanup` acts on an ID or a path that
begins with `pfx`. -/
theorem issued_in_namespace {σ : Type} (r : ConsulMetaAdapter σ) (service : Service)
    (validServices : List (String × Option Service)) (w : World σ) (pfx : String)
    (hp : sliceFrom r.path 1 = .ok pfx) :
    (∃ issued, (Register r service w).2.calls = w.calls ++ issued ∧
      ∀ c ∈ issued, ∀ t, c.target = some t → HasPrefix t pfx = true) ∧
    (∃ issued, (Deregister r service w).2.calls = w.calls ++ issued ∧
      ∀ c ∈ issued, ∀ t, c.target = some t → HasPrefix t pfx = true) ∧
    (∃ issued, (Cleanup r validServices w).2.calls = w.calls ++ issued ∧
      ∀ c ∈ issued, ∀ t, c.target = some t → HasPrefix t pfx = true) := by
  refine ⟨?_, ?_, ?_⟩
  · cases hc : buildCheck service with
    | error p =>
      obtain ⟨q, hq⟩ := Register_panic_of_buildCheck r service w p hc
      refine ⟨[], by rw [hq]; simp, ?_⟩
      intro c hmem
      cases hmem
    | ok check =>
      refine ⟨_, by rw [Register_calls r service w pfx check hp hc, List.append_assoc], ?_⟩
      intro c hmem t ht
      rw [List.mem_append] at hmem
      rcases hmem with hmem | hmem
      · obtain ⟨kv, _, rfl⟩ := List.mem_map.mp hmem
        cases ht
        simp only [String.append_assoc]
        exact hasPrefix_append _ _
      · rw [List.mem_singleton] at hmem
        subst hmem
        cases ht
        exact hasPrefix_append _ _
  · refine ⟨_, Deregister_calls r service w pfx hp, ?_⟩
    intro c hmem t ht
    simp only [List.mem_cons, List.mem_singleton, List.not_mem_nil, or_false] at hmem
    rcases hmem with rfl | rfl
    · cases ht
      simp only [String.append_assoc]
      exact hasPrefix_append _ _
    · cases ht
      exact hasPrefix_append _ _
  · obtain ⟨orphans, hcalls, horph⟩ := Cleanup_issued r validServices w pfx hp
    refine ⟨_, hcalls, ?_⟩
    intro c hmem t ht
    rw [List.mem_cons] at hmem
    rcases hmem with rfl | hmem
    · cases ht
    · obtain ⟨id, hid, rfl⟩ := List.mem_map.mp hmem
      cases ht
      exact ((isOrphan_iff pfx validServices t).mp (horph t hid)).1

/-! ## Claims on the namespace -/

/-- C15: for every adapter and every input, every registry entry ID that one
run of `Register`, `Deregister` or `Cleanup` registers or deregisters, and
every key/value path that it writes or deletes, begins with the namespace
prefix, the configured path without its first character. -/
theorem namespace_invariant {σ : Type} (r : ConsulMetaAdapter σ) (service : Service)
    (validServices : List (String × Option Service)) (w : World σ) :
    (∃ issued, (Register r service w).2.calls = w.calls ++ issued ∧
      ∀ c ∈ issued, ∀ t, c.target = some t →
        HasPrefix t (String.mk (r.path.data.drop 1)) = true) ∧
    (∃ issued, (Deregister r service w).2.calls = w.calls ++ issued ∧
      ∀ c ∈ issued, ∀ t, c.target = some t →
        HasPrefix t (String.mk (r.path.data.drop 1)) = true) ∧
    (∃ issued, (Cleanup r validServices w).2.calls = w.calls ++ issued ∧
      ∀ c ∈ issued, ∀ t, c.target = some t →
        HasPrefix t (String.mk (r.path.data.drop 1)) = true) := by
  by_cases hne : r.path = ""
  · have hs := sliceFrom_one_of_empty r.path hne
    refine ⟨⟨[], by simp [Register, hs], ?_⟩, ⟨[], by simp [Deregister, hs], ?_⟩,
      ⟨[Call.Services], Cleanup_calls_of_panic r validServices w _ hs, ?_⟩⟩
    · intro c hc
      cases hc
    · intro c hc
      cases hc
    · intro c hc t ht
      rw [List.mem_singleton] at hc
      subst hc
      cases ht
  · exact issued_in_namespace r service validServices w _
      (sliceFrom_one_of_ne_empty r.path hne)

/-- C15 at the adapter mounted at `/reg`: the calls of `Register` for
`webService` and of `Cleanup` over a listing with a foreign entry. -/
theorem namespace_invariant_witness :
    String.mk ((scriptedAdapter "/reg" ["regw2", "other"]).path.data.drop 1) = "reg" ∧
    (Register (scriptedAdapter "/reg" ["regw2", "other"]) webService (World.start [])).2.calls
      = [Call.KVPut "reg/web/w1/owner" "ops", Call.KVPut "reg/web/w1/tier" "front",
         Call.ServiceRegister
          { ID := "regw1", Name := "web", Port := 8080, Tags := ["blue"],
            Address := "10.0.0.5", Check := none }] ∧
    (Cleanup (scriptedAdapter "/reg" ["regw2", "other"]) [] (World.start [])).2.calls
      = [Call.Services, Call.ServiceDeregister "regw2"] ∧
    ((∃ issued,
        (Register (scriptedAdapter "/reg" ["regw2", "other"]) webService
          (World.start [])).2.calls = (World.start []).calls ++ issued ∧
        ∀ c ∈ issued, ∀ t, c.target = some t → HasPrefix t "reg" = true) ∧
      (∃ issued,
        (Deregister (scriptedAdapter "/reg" ["regw2", "other"]) webService
          (World.start [])).2.calls = (World.start []).calls ++ issued ∧
        ∀ c ∈ issued, ∀ t, c.target = some t → HasPrefix t "reg" = true) ∧
      (∃ issued,
        (Cleanup (scriptedAdapter "/reg" ["regw2", "other"]) [] (World.start [])).2.calls
          = (World.start []).calls ++ issued ∧
        ∀ c ∈ issued, ∀ t, c.target = some t → HasPrefix t "reg" = true)) :=
  ⟨by decide, by decide, by decide,
    namespace_invariant (scriptedAdapter "/reg" ["regw2", "other"]) webService []
      (World.start [])⟩

/-- C16: the entry that `Register` submits for a service has an ID that begins
with `pfx` and from which stripping `pfx` gives back the service ID, whatever
`pfx` is; so when the valid-services mapping binds the service ID to a non-nil
service, no run of `Cleanup` issues a deregister call for that entry. -/
theorem Register_Cleanup_agree {σ : Type} (r : ConsulMetaAdapter σ) (service : Service)
    (w : World σ) (pfx : String) (check : Option AgentServiceCheck)
    (hp : sliceFrom r.path 1 = .ok pfx) (hc : buildCheck service = .ok check) :
    ∃ registration : AgentServiceRegistration,
      submitted (Register r service w).2.calls = submitted w.calls ++ [registration] ∧
      HasPrefix registration.ID pfx = true ∧
      TrimPrefix registration.ID pfx = service.ID ∧
      ∀ (validServices : List (String × Option Service)) (v : Service) (w2 : World σ),
        validServices.lookup service.ID = some (some v) →
        ∃ issued, (Cleanup r validServices w2).2.calls = w2.calls ++ issued ∧
          Call.ServiceDeregister registration.ID ∉ issued := by
  refine ⟨{ ID := pfx ++ service.ID, Name := service.Name, Port := service.Port,
            Tags := service.Tags, Address := service.IP, Check := check }, ?_,
    hasPrefix_append _ _, trimPrefix_append _ _, ?_⟩
  · rw [Register_calls r service w pfx check hp hc]
    simp [submitted, List.filterMap_append]
  · intro validServices v w2 hv
    obtain ⟨orphans, hcalls, horph⟩ := Cleanup_issued r validServices w2 pfx hp
    refine ⟨_, hcalls, ?_⟩
    intro hmem
    rw [List.mem_cons] at hmem
    rcases hmem with hmem | hmem
    · cases hmem
    · obtain ⟨id, hid, hidEq⟩ := List.mem_map.mp hmem
      injection hidEq with hidEq
      subst hidEq
      have ho := ((isOrphan_iff pfx validServices _).mp (horph _ hid)).2
      rw [trimPrefix_append, hv] at ho
      rcases ho with ho | ho <;> cases ho

/-- C16 at the adapter mounted at `/w`, whose prefix `w` is itself a prefix
of the ID `w1` of `webService`: the entry `ww1` strips to `w1` and is not
deregistered by `Cleanup` while `w1` is valid. -/
theorem Register_Cleanup_agree_witness :
    sliceFrom (scriptedAdapter "/w" ["ww1", "ww2"]).path 1 = .ok "w" ∧
    buildCheck webService = .ok none ∧
    (submitted (Register (scriptedAdapter "/w" ["ww1", "ww2"]) webService
        (World.start [])).2.calls).map (fun e => e.ID) = ["ww1"] ∧
    TrimPrefix "ww1" "w" = "w1" ∧
    (Cleanup (scriptedAdapter "/w" ["ww1", "ww2"]) [("w1", some webService)]
        (World.start [])).2.calls = [Call.Services, Call.ServiceDeregister "ww2"] ∧
    ∃ registration : AgentServiceRegistration,
      submitted (Register (scriptedAdapter "/w" ["ww1", "ww2"]) webService
        (World.start [])).2.calls = submitted (World.start []).calls ++ [registration] ∧
      HasPrefix registration.ID "w" = true ∧
      TrimPrefix registration.ID "w" = webService.ID ∧
      ∀ (validServices : List (String × Option Service)) (v : Service)
        (w2 : World (List (Option Error))),
        validServices.lookup webService.ID = some (some v) →
        ∃ issued,
          (Cleanup (scriptedAdapter "/w" ["ww1", "ww2"]) validServices w2).2.calls
            = w2.calls ++ issued ∧
          Call.ServiceDeregister registration.ID ∉ issued :=
  ⟨by decide, by decide, by decide, by decide, by decide,
    Register_Cleanup_agree (scriptedAdapter "/w" ["ww1", "ww2"]) webService (World.start [])
      "w" none (by decide) (by decide)⟩

/-! ## Lemmas on the explicit backend -/

theorem putAttrs_mem_catalog (path basePath : String) (attrs : List (String × String))
    (w : World Backend) :
    (putAttrs (memAdapter path) basePath attrs w).backend.catalog = w.backend.catalog := by
  induction attrs generalizing w with
  | nil => rfl
  | cons kv rest ih =>
    obtain ⟨key, value⟩ := kv
    show (putAttrs (memAdapter path) basePath rest _).backend.catalog = _
    rw [ih]
    rfl

theorem Deregister_mem_backend (path : String) (service : Service) (w : World Backend)
    (pfx : String) (hp : sliceFrom path 1 = .ok pfx) :
    (Deregister (memAdapter path) service w).2.backend =
      { catalog := w.backend.catalog.filter (fun e => e.ID ≠ pfx ++ service.ID),
        kv := w.backend.kv.filter
          (fun e => !HasPrefix e.1 (pfx ++ "/" ++ service.Name ++ "/" ++ service.ID)) } := by
  rw [Deregister_of_ok (memAdapter path) service w pfx hp]
  simp [World.invoke, memAdapter, memClient]

/-- C13: over the explicit backend, on which every call succeeds, with `pfx`
the configured path without its first character: after `Register` of a
service on which `buildCheck` does not fail the catalog holds the entry `pfx`
+ ID; and `Register` followed by `Deregister` of the same service leaves a
catalog without an entry of that ID and a key/value store without any key
under the attribute path of the service, so none of the keys that `Register`
wrote is left. -/
theorem Register_Deregister_round_trip (path : String) (service : Service)
    (w : World Backend) (pfx : String) (hp : sliceFrom path 1 = .ok pfx) :
    (∀ check, buildCheck service = .ok check →
      ∃ e ∈ (Register (memAdapter path) service w).2.backend.catalog,
        e.ID = pfx ++ service.ID) ∧
    (∀ e ∈ (Deregister (memAdapter path) service
        (Register (memAdapter path) service w).2).2.backend.catalog,
      e.ID ≠ pfx ++ service.ID) ∧
    (∀ kv ∈ (Deregister (memAdapter path) service
        (Register (memAdapter path) service w).2).2.backend.kv,
      HasPrefix kv.1 (pfx ++ "/" ++ service.Name ++ "/" ++ service.ID) = false) ∧
    (∀ a ∈ service.Attrs,
      ∀ kv ∈ (Deregister (memAdapter path) service
        (Register (memAdapter path) service w).2).2.backend.kv,
      kv.1 ≠ pfx ++ "/" ++ service.Name ++ "/" ++ service.ID ++ "/" ++ a.1) := by
  have hkv : ∀ kv ∈ (Deregister (memAdapter path) service
      (Register (memAdapter path) service w).2).2.backend.kv,
      HasPrefix kv.1 (pfx ++ "/" ++ service.Name ++ "/" ++ service.ID) = false := by
    intro kv hmem
    rw [Deregister_mem_backend path service _ pfx hp] at hmem
    have h := (List.mem_filter.mp hmem).2
    simpa using h
  refine ⟨?_, ?_, hkv, ?_⟩
  · intro check hc
    rw [Register_of_ok (memAdapter path) service w pfx check hp hc]
    refine ⟨{ ID := pfx ++ service.ID, Name := service.Name, Port := service.Port,
              Tags := service.Tags, Address := service.IP, Check := check }, ?_, rfl⟩
    simp [World.invoke, memAdapter, memClient]
  · intro e hmem
    rw [Deregister_mem_backend path service _ pfx hp] at hmem
    have h := (List.mem_filter.mp hmem).2
    simpa using h
  · intro a _ kv hmem heq
    have h := hkv kv hmem
    rw [heq, String.append_assoc _ "/" a.1, hasPrefix_append] at h
    cases h

/-- C13 at the adapter mounted at `/reg`, over a backend that already holds
the entry and an attribute of another service: `Register` of `webService`
adds its entry and its two keys, and `Deregister` removes them again. -/
theorem Register_Deregister_round_trip_witness :
    sliceFrom "/reg" 1 = .ok "reg" ∧
    (Register (memAdapter "/reg") webService
      (World.over { catalog := [{ ID := "regdb1", Name := "db" }],
                    kv := [("reg/db/db1/owner", "dba")] })).2.backend
      = { catalog := [{ ID := "regw1", Name := "web", Port := 8080, Tags := ["blue"],
                        Address := "10.0.0.5", Check := none },
                      { ID := "regdb1", Name := "db" }],
          kv := [("reg/web/w1/tier", "front"), ("reg/web/w1/owner", "ops"),
                 ("reg/db/db1/owner", "dba")] } ∧
    (Deregister (memAdapter "/reg") webService
      (Register (memAdapter "/reg") webService
        (World.over { catalog := [{ ID := "regdb1", Name := "db" }],
                      kv := [("reg/db/db1/owner", "dba")] })).2).2.backend
      = { catalog := [{ ID := "regdb1", Name := "db" }],
          kv := [("reg/db/db1/owner", "dba")] } ∧
    ∀ e ∈ (Deregister (memAdapter "/reg") webService
        (Register (memAdapter "/reg") webService
          (World.over { catalog := [{ ID := "regdb1", Name := "db" }],
                        kv := [("reg/db/db1/owner", "dba")] })).2).2.backend.catalog,
      e.ID ≠ "reg" ++ webService.ID :=
  ⟨by decide, by decide, by decide,
    (Register_Deregister_round_trip "/reg" webService
      (World.over { catalog := [{ ID := "regdb1", Name := "db" }],
                    kv := [("reg/db/db1/owner", "dba")] }) "reg" (by decide)).2.1⟩

/-- C18 fails on the code: `port80Service` and `port8080Service` have the
same name and different IDs; over the explicit backend mounted at `/reg`,
`Register` of `port8080Service` writes its two attribute keys, and
`Deregister` of `port80Service` then deletes the tree `reg/web/host:web:80`,
a string prefix of both keys, and removes them. -/
theorem Deregister_removes_foreign_keys :
    port80Service.Name = port8080Service.Name ∧
    port80Service.ID ≠ port8080Service.ID ∧
    (Register (memAdapter "/reg") port8080Service (World.over {})).2.backend.kv
      = [("reg/web/host:web:8080/tier", "front"), ("reg/web/host:web:8080/owner", "dev")] ∧
    (Deregister (memAdapter "/reg") port80Service (World.over {})).2.calls
      = [Call.KVDeleteTree "reg/web/host:web:80", Call.ServiceDeregister "reghost:web:80"] ∧
    (Deregister (memAdapter "/reg") port80Service
      (Register (memAdapter "/reg") port8080Service (World.over {})).2).2.backend.kv = [] := by
  decide

end Consulmeta
